import Mathlib

/-!
Verification of the `create_document_by_text` workflow and the credential
validator of the `dify-plugin-knowledge-pro` repository.

The Python sources are shallowly embedded: Python/JSON values are the
inductive `Json` below (Python `None` is `Json.null`, which is also what
`dict.get` yields for an absent key, exactly as in CPython); the raised
exceptions (`ValueError`, `json.JSONDecodeError`, `AttributeError`, ...)
become the `PyError` sum carried by `Except`; the outbound HTTP calls of
`_invoke` are resolved against an explicit environment recording what the
remote service answers, and the invocation returns both the emitted
messages and the trace of issued requests.
-/

namespace KnowledgePro

/-- A Python/JSON value as produced by `json.loads` and passed around in
`create_document_by_text.py`.  Numbers are integers (the embedded code
paths only ever distinguish `isinstance(x, int)`). -/
inductive Json where
  | null
  | bool (b : Bool)
  | num (n : Int)
  | str (s : String)
  | arr (elems : List Json)
  | obj (members : List (String × Json))
deriving Repr, Inhabited

/-- Python exceptions that the embedded code can raise. -/
inductive PyError where
  | valueError (msg : String)
  | jsonDecodeError (msg : String)
  | attributeError (msg : String)
  | typeError (msg : String)
  | runtimeError (msg : String)
  | timeoutError
  | otherError (msg : String)
deriving Repr, DecidableEq

namespace Json

mutual
/-- Structural equality test on `Json` (Python `==` on these values). -/
def beq : Json → Json → Bool
  | .null, .null => true
  | .bool a, .bool b => a == b
  | .num a, .num b => a == b
  | .str a, .str b => a == b
  | .arr as, .arr bs => beqList as bs
  | .obj as, .obj bs => beqMembers as bs
  | _, _ => false

def beqList : List Json → List Json → Bool
  | [], [] => true
  | a :: as, b :: bs => beq a b && beqList as bs
  | _, _ => false

def beqMembers : List (String × Json) → List (String × Json) → Bool
  | [], [] => true
  | (k, v) :: as, (l, w) :: bs => k == l && beq v w && beqMembers as bs
  | _, _ => false
end

instance : BEq Json := ⟨beq⟩

mutual
theorem beq_iff : ∀ a b : Json, beq a b = true ↔ a = b
  | .null, b => by cases b <;> simp [beq]
  | .bool x, b => by cases b <;> simp [beq]
  | .num x, b => by cases b <;> simp [beq]
  | .str x, b => by cases b <;> simp [beq]
  | .arr as, b => by cases b <;> simp [beq, beqList_iff as]
  | .obj ms, b => by cases b <;> simp [beq, beqMembers_iff ms]

theorem beqList_iff : ∀ as bs : List Json, beqList as bs = true ↔ as = bs
  | [], bs => by cases bs <;> simp [beqList]
  | a :: as, bs => by
      cases bs with
      | nil => simp [beqList]
      | cons b bs => simp [beqList, beq_iff a b, beqList_iff as bs]

theorem beqMembers_iff :
    ∀ as bs : List (String × Json), beqMembers as bs = true ↔ as = bs
  | [], bs => by cases bs <;> simp [beqMembers]
  | (k, v) :: as, bs => by
      cases bs with
      | nil => simp [beqMembers]
      | cons b bs =>
          obtain ⟨l, w⟩ := b
          simp [beqMembers, beq_iff v w, beqMembers_iff as bs, and_assoc]
end

instance : DecidableEq Json := fun a b => decidable_of_iff _ (beq_iff a b)

/-- Python truthiness (`bool(x)`): `None`, `False`, `0`, `""`, `[]`, `{}`
are falsy, everything else truthy. -/
def truthy : Json → Bool
  | .null => false
  | .bool b => b
  | .num n => n != 0
  | .str s => s != ""
  | .arr es => !es.isEmpty
  | .obj ms => !ms.isEmpty

/-- Python type name, used in `AttributeError` messages. -/
def typeName : Json → String
  | .null => "NoneType"
  | .bool _ => "bool"
  | .num _ => "int"
  | .str _ => "str"
  | .arr _ => "list"
  | .obj _ => "dict"

/-- `x.get(k)` on a Python value: on a `dict` it returns the value bound to
`k`, or `None` when `k` is absent; on anything else it raises
`AttributeError` (only `dict` has `.get`). -/
def pyGet : Json → String → Except PyError Json
  | .obj ms, k => .ok ((ms.lookup k).getD .null)
  | j, _ => .error (.attributeError ("'" ++ j.typeName ++ "' object has no attribute 'get'"))

/-- `x.get(k, d)` on a `dict`: the bound value when the key is present
(even when bound to `None`), else the default `d`. -/
def pyGetD : Json → String → Json → Except PyError Json
  | .obj ms, k, d => .ok (match ms.lookup k with | some v => v | none => d)
  | j, _, _ => .error (.attributeError ("'" ++ j.typeName ++ "' object has no attribute 'get'"))

/-- `k in x` for a Python `dict`. -/
def hasKey : Json → String → Bool
  | .obj ms, k => (ms.lookup k).isSome
  | _, _ => false

/-- Iterating a Python value (`for x in v`): lists yield their elements,
dicts their keys, strings their characters; other types are not iterable. -/
def pyIter : Json → Except PyError (List Json)
  | .arr es => .ok es
  | .obj ms => .ok (ms.map fun m => .str m.1)
  | .str s => .ok (s.toList.map fun c => .str c.toString)
  | j => .error (.typeError ("'" ++ j.typeName ++ "' object is not iterable"))

/-- `isinstance(x, bool)`. -/
def isBool : Json → Bool
  | .bool _ => true
  | _ => false

/-- `isinstance(x, int)`.  In Python `bool` is a subclass of `int`, so
`True`/`False` count as integers. -/
def isInt : Json → Bool
  | .num _ => true
  | .bool _ => true
  | _ => false

/-- `isinstance(x, str)`. -/
def isStr : Json → Bool
  | .str _ => true
  | _ => false

/-- `isinstance(x, dict)`. -/
def isObj : Json → Bool
  | .obj _ => true
  | _ => false

/-- `isinstance(x, list)`. -/
def isArr : Json → Bool
  | .arr _ => true
  | _ => false

mutual
/-- Python `str(x)`: strings verbatim, everything else via `repr`. -/
def pyStr : Json → String
  | .str s => s
  | j => pyRepr j

/-- Python `repr(x)` (string escaping elided: the embedded strings never
need it). -/
def pyRepr : Json → String
  | .null => "None"
  | .bool true => "True"
  | .bool false => "False"
  | .num n => toString n
  | .str s => "'" ++ s ++ "'"
  | .arr es => "[" ++ String.intercalate ", " (reprList es) ++ "]"
  | .obj ms => "\x7b" ++ String.intercalate ", " (reprMembers ms) ++ "\x7d"

def reprList : List Json → List String
  | [] => []
  | e :: es => pyRepr e :: reprList es

def reprMembers : List (String × Json) → List String
  | [] => []
  | (k, v) :: ms => ("'" ++ k ++ "': " ++ pyRepr v) :: reprMembers ms
end

/-- Python `a or b` (returns `a` when truthy, else `b`). -/
def pyOr (a b : Json) : Json := if a.truthy then a else b

/-- In-place update of a member list, as Python `d[k] = v`: the first
binding of `k` is replaced keeping its position, a missing key is appended
at the end (CPython dicts keep insertion order). -/
def objSet : List (String × Json) → String → Json → List (String × Json)
  | [], k, v => [(k, v)]
  | (k', v') :: rest, k, v =>
      if k' = k then (k, v) :: rest else (k', v') :: objSet rest k v

/-- `d.get(k)` restricted to a member list (`None` when absent). -/
def mget (ms : List (String × Json)) (k : String) : Json :=
  (ms.lookup k).getD .null

/-- `d.get(k, dflt)` restricted to a member list. -/
def mgetD (ms : List (String × Json)) (k : String) (dflt : Json) : Json :=
  match ms.lookup k with
  | some v => v
  | none => dflt

end Json

/-! ## Parameter loading and validation
(`create_document_by_text.py`, lines 21-123) -/

/-- `DEFAULT_INDEXING_TECHNIQUE` (line 11). -/
def DEFAULT_INDEXING_TECHNIQUE : String := "high_quality"

/-- `DEFAULT_PROCESS_RULE` (line 12). -/
def DEFAULT_PROCESS_RULE : Json := .obj [("mode", .str "automatic")]

/-- Body of the loop in `_validate_pre_processing_rules` (lines 25-29):
`rule.get("id")` must be truthy and `rule.get("enabled")` strictly boolean. -/
def checkPreProcessingRule (rule : Json) : Except PyError Unit := do
  let idv ← rule.pyGet "id"
  if !idv.truthy then
    throw (.valueError "Process rule pre_processing_rules id is required")
  let enabled ← rule.pyGet "enabled"
  if !enabled.isBool then
    throw (.valueError "Process rule pre_processing_rules enabled must be a boolean")

def checkPreProcessingRules : List Json → Except PyError Unit
  | [] => .ok ()
  | r :: rs => do
      checkPreProcessingRule r
      checkPreProcessingRules rs

/-- `_validate_pre_processing_rules` (lines 21-29).  The argument is the
value of `rules.get("pre_processing_rules")`, so `Json.null` stands for
Python `None` (absent key or explicit null). -/
def validatePreProcessingRules (pre_processing_rules : Json) : Except PyError Unit := do
  if pre_processing_rules = .null then
    throw (.valueError "Process rule pre_processing_rules is required for custom/hierarchical mode")
  let items ← pre_processing_rules.pyIter
  checkPreProcessingRules items

/-- `_validate_segmentation_rules` (lines 31-48).  `max_tokens` is only
looked at when NOT (`mode == "hierarchical"` and `parent_mode == "full-doc"`). -/
def validateSegmentationRules (segmentation mode parent_mode : Json) : Except PyError Unit := do
  if segmentation = .null then
    throw (.valueError "Process rule segmentation is required for custom/hierarchical mode")
  let separator ← segmentation.pyGet "separator"
  if separator = .null then
    throw (.valueError "Process rule segmentation separator is required")
  if !separator.isStr then
    throw (.valueError "Process rule segmentation separator must be a string")
  if mode = .str "hierarchical" ∧ parent_mode = .str "full-doc" then
    return ()
  else
    let max_tokens ← segmentation.pyGet "max_tokens"
    if max_tokens = .null then
      throw (.valueError "Process rule segmentation max_tokens is required")
    if !max_tokens.isInt then
      throw (.valueError "Process rule segmentation max_tokens must be an integer")

/-- `_validate_process_rule_structure` (lines 50-62). -/
def validateProcessRuleStructure (process_rule : Json) : Except PyError Unit := do
  let mode ← process_rule.pyGet "mode"
  if ¬(mode = Json.str "automatic" ∨ mode = Json.str "custom" ∨ mode = Json.str "hierarchical") then
    let m := mode.pyStr
    throw (.valueError
      ("Invalid process_rule mode: " ++ m ++ ". Must be 'automatic', 'custom', or 'hierarchical'"))
  if mode = Json.str "custom" ∨ mode = Json.str "hierarchical" then
    let rules ← process_rule.pyGet "rules"
    if !rules.truthy then
      throw (.valueError "Process rule 'rules' is required for custom or hierarchical mode")
    let ppr ← rules.pyGet "pre_processing_rules"
    validatePreProcessingRules ppr
    let seg ← rules.pyGet "segmentation"
    let pm ← rules.pyGet "parent_mode"
    validateSegmentationRules seg mode pm

/-- `_resolve_indexing_technique` (lines 64-75). -/
def resolveIndexingTechnique (indexing_technique : Json) : Except PyError String := do
  if indexing_technique = .null then
    return DEFAULT_INDEXING_TECHNIQUE
  match indexing_technique with
  | .str s =>
      let stripped := s.trim
      if stripped = "" then return DEFAULT_INDEXING_TECHNIQUE
      return stripped
  | _ => throw (.valueError "indexing_technique must be a string")

/-- The outcome of `x.strip()` followed by `json.loads` on a raw tool
parameter that is expected to hold JSON text.  This abstracts the Python
string handling of `_load_process_rule` / `_load_metadata`:
`absent` is a missing parameter or `None`; `notString` a non-`str` value;
`blank` a string whose `strip()` is empty; `malformed` a non-blank string
rejected by `json.loads` (with the decoder's message); `wellFormed j` a
non-blank string parsing to the value `j`. -/
inductive RawText where
  | absent
  | notString (v : Json)
  | blank
  | malformed (emsg : String)
  | wellFormed (j : Json)
deriving Repr, DecidableEq

/-- `_load_process_rule` (lines 77-95). -/
def loadProcessRule (process_rule_raw : RawText) : Except PyError Json := do
  match process_rule_raw with
  | .absent =>
      let process_rule := DEFAULT_PROCESS_RULE
      validateProcessRuleStructure process_rule
      return process_rule
  | .notString _ =>
      throw (.valueError "process_rule must be provided as a JSON string")
  | .blank =>
      let process_rule := DEFAULT_PROCESS_RULE
      validateProcessRuleStructure process_rule
      return process_rule
  | .malformed emsg => throw (.jsonDecodeError emsg)
  | .wellFormed process_rule =>
      validateProcessRuleStructure process_rule
      return process_rule

/-- Body of the loop in `_load_metadata` (lines 113-121). -/
def checkMetadataItem (item : Json) : Except PyError Unit := do
  if !item.isObj then
    throw (.valueError "Each metadata item must be an object")
  let idv ← item.pyGet "id"
  if !idv.truthy then
    throw (.valueError "Each metadata item must have an 'id' field")
  let namev ← item.pyGet "name"
  if !namev.truthy then
    throw (.valueError "Each metadata item must have a 'name' field")
  if !item.hasKey "value" then
    throw (.valueError "Each metadata item must have a 'value' field")

def checkMetadataItems : List Json → Except PyError Unit
  | [] => .ok ()
  | item :: rest => do
      checkMetadataItem item
      checkMetadataItems rest

/-- `_load_metadata` (lines 97-123): `Json.null` models the Python `None`
returned for an absent/blank parameter, `.arr items` the validated list. -/
def loadMetadata (metadata_raw : RawText) : Except PyError Json := do
  match metadata_raw with
  | .absent => return .null
  | .notString _ =>
      throw (.valueError "metadata_json must be provided as a JSON string")
  | .blank => return .null
  | .malformed emsg => throw (.jsonDecodeError emsg)
  | .wellFormed metadata =>
      match metadata with
      | .arr items =>
          checkMetadataItems items
          return .arr items
      | _ => throw (.valueError "metadata_json must be a JSON array")

/-! ## HTTP layer
An outbound call is resolved against an explicit outcome: a response (with
status, raw text, and the result of `response.json()`), a timeout, or some
other transport exception. -/

instance {ε α : Type} [DecidableEq ε] [DecidableEq α] : DecidableEq (Except ε α) :=
  fun a b =>
    match a, b with
    | .ok x, .ok y => decidable_of_iff (x = y) (by simp)
    | .error x, .error y => decidable_of_iff (x = y) (by simp)
    | .ok _, .error _ => isFalse (by simp)
    | .error _, .ok _ => isFalse (by simp)

/-- An HTTP response as the embedded code observes it: `jsonBody` is the
result of `response.json()` (`.error` models `json.JSONDecodeError`, with
the decoder's message). -/
structure HttpResponse where
  status : Nat
  text : String := ""
  jsonBody : Except String Json := .error "Expecting value: line 1 column 1 (char 0)"
deriving Repr, DecidableEq

/-- What an outbound `httpx` call does: return a response, raise
`httpx.TimeoutException` (with `str(e)`), or raise some other exception. -/
inductive HttpOutcome where
  | resp (r : HttpResponse)
  | timeout (emsg : String)
  | exc (emsg : String)
deriving Repr, DecidableEq

/-- The `detail` computed by `_raise_for_status` for a non-2xx response
(lines 202-214): the `message` or `error` or `detail` field (Python `or`:
first truthy) when the body parses to a dict; `None` when it parses to a
non-dict; the raw text (when non-empty) only when `response.json()`
raises. -/
def upstreamDetail (response : HttpResponse) : Json :=
  match response.jsonBody with
  | .ok parsed =>
      match parsed with
      | .obj ms =>
          Json.pyOr (Json.mget ms "message")
            (Json.pyOr (Json.mget ms "error") (Json.mget ms "detail"))
      | _ => .null
  | .error _ => if response.text ≠ "" then .str response.text else .null

/-- The `RuntimeError` message of `_raise_for_status` (lines 216-219):
the detail when truthy, else the bare status code. -/
def upstreamMessage (message : String) (response : HttpResponse) : String :=
  if (upstreamDetail response).truthy then
    message ++ ": " ++ (upstreamDetail response).pyStr
  else
    message ++ ": HTTP " ++ toString response.status

/-- `_raise_for_status` (lines 196-219): 2xx passes; otherwise a
`RuntimeError` carrying `upstreamMessage`. -/
def raiseForStatus (response : HttpResponse) (message : String) : Except PyError Unit :=
  if 200 ≤ response.status ∧ response.status < 300 then
    .ok ()
  else
    .error (.runtimeError (upstreamMessage message response))

/-- The scan loop of `_find_document_id_by_name` (lines 145-150): first
entry that is a dict whose `name` equals the target exactly and whose `id`
is a non-empty string. -/
def scanDocuments (document_name : String) : List Json → Option String
  | [] => none
  | item :: rest =>
      match item with
      | .obj ms =>
          if Json.mget ms "name" = .str document_name then
            match Json.mget ms "id" with
            | .str doc_id =>
                if doc_id ≠ "" then some doc_id else scanDocuments document_name rest
            | _ => scanDocuments document_name rest
          else scanDocuments document_name rest
      | _ => scanDocuments document_name rest

/-- The pure part of `_find_document_id_by_name` (lines 138-150): extract
a matching document id from the decoded listing payload. -/
def findDocIdInPayload (payload : Json) (document_name : String) : Option String :=
  match payload with
  | .obj ms =>
      match Json.mget ms "data" with
      | .arr documents => scanDocuments document_name documents
      | _ => none
  | _ => none

/-- `_find_document_id_by_name` (lines 125-150), with the `httpx.get`
resolved against the given outcome.  Transport exceptions propagate; a
non-2xx listing response or an undecodable body raises `RuntimeError`. -/
def findDocumentIdByName (outcome : HttpOutcome) (document_name : String) :
    Except PyError (Option String) := do
  match outcome with
  | .timeout _ => throw .timeoutError
  | .exc emsg => throw (.otherError emsg)
  | .resp response =>
      raiseForStatus response "Failed to query existing documents"
      match response.jsonBody with
      | .error emsg =>
          throw (.runtimeError ("Unexpected response while searching documents: " ++ emsg))
      | .ok payload => return findDocIdInPayload payload document_name

/-- `_assign_metadata` (lines 152-194) without its URL/body construction
(those are recorded in the request trace by the caller).  Total: every
outcome, including transport exceptions, becomes a
`{success, message}` dict — the bare `except Exception` at lines 190-194
converts any raised exception into a failure record. -/
def assignMetadata (outcome : HttpOutcome) : Json :=
  match outcome with
  | .resp response =>
      if response.status = 200 then
        .obj [("success", .bool true), ("message", .str "Metadata assigned successfully")]
      else
        let error_detail : Json :=
          match response.jsonBody with
          | .ok (.obj ms) =>
              Json.mgetD ms "message" (Json.mgetD ms "error" (.str response.text))
          | _ => .str response.text
        .obj [("success", .bool false),
              ("message", .str ("Metadata assignment failed (HTTP " ++ toString response.status
                ++ "): " ++ error_detail.pyStr))]
  | .timeout emsg =>
      .obj [("success", .bool false), ("message", .str ("Metadata assignment error: " ++ emsg))]
  | .exc emsg =>
      .obj [("success", .bool false), ("message", .str ("Metadata assignment error: " ++ emsg))]

/-! ## The `_invoke` workflow (lines 221-380)
The invocation is a pure function of the credentials, the tool parameters,
and an environment giving the outcome of each of the up-to-three outbound
calls; it returns the emitted messages together with the trace of issued
requests. -/

/-- The ambient credentials (`self.runtime.credentials`); `none` models a
missing key. -/
structure Credentials where
  api_key : Option String := none
  base_url : Option String := none
deriving Repr, DecidableEq

/-- The flat `tool_parameters` mapping.  The three required parameters are
modelled as the strings the workflow reads via `.get(..., "")`; the
optional ones as the Python values (`Json.null` = absent), with the two
JSON-text parameters abstracted by `RawText`. -/
structure ToolParams where
  dataset_id : String := ""
  name : String := ""
  text : String := ""
  indexing_technique : Json := .null
  doc_form : Json := .null
  doc_language : Json := .null
  process_rule : RawText := .absent
  metadata_json : RawText := .absent
deriving Repr, DecidableEq

/-- A message yielded by the tool: `create_text_message` or
`create_json_message`. -/
inductive Message where
  | text (s : String)
  | json (j : Json)
deriving Repr, DecidableEq

/-- An outbound request issued by the workflow: the document listing
(line 130), the document write (line 314), or the metadata assignment
(line 172). -/
inductive Request where
  | listDocuments (url : String) (keyword : String) (limit page : Nat)
  | writeDocument (url : String) (body : Json)
  | metadataAssign (url : String) (body : Json)
deriving Repr, DecidableEq

/-- The remote service's behaviour for one invocation: the outcome of the
listing call, the write call, and the metadata call. -/
structure Env where
  listOutcome : HttpOutcome
  writeOutcome : HttpOutcome
  metaOutcome : HttpOutcome
deriving Repr, DecidableEq

/-- What one invocation produced: the yielded messages, in order, and the
trace of requests issued. -/
structure InvokeResult where
  messages : List Message
  requests : List Request
deriving Repr, DecidableEq

/-- How the outer exception handlers of `_invoke` (lines 372-380) turn a
raised exception into the single text message: `httpx.TimeoutException`
first, then `RuntimeError` (bare `str(e)`), then any `Exception` as
`"Error: " + str(e)`. -/
def invokeErrorMessage : PyError → String
  | .timeoutError => "Request timed out. The document may still be processing."
  | .runtimeError m => m
  | .valueError m => "Error: " ++ m
  | .jsonDecodeError m => "Error: " ++ m
  | .attributeError m => "Error: " ++ m
  | .typeError m => "Error: " ++ m
  | .otherError m => "Error: " ++ m

/-- `base_url_credential.rstrip("/")` (line 253). -/
def rstripSlash (s : String) : String :=
  String.mk ((s.toList.reverse.dropWhile fun c => c == '/').reverse)

/-- Truthiness of an optional string (Python `if not x` on a value that is
`None` or a `str`). -/
def optTruthy : Option String → Bool
  | some s => s != ""
  | none => false

/-- The request body built at lines 261-282: `text`, `name`,
`indexing_technique`, then `doc_form` and `doc_language` when neither
`None` nor `""`, then `process_rule`. -/
def buildData (p : ToolParams) (indexing_technique : String) (process_rule : Json) : Json :=
  let base := [("text", Json.str p.text), ("name", Json.str p.name),
               ("indexing_technique", Json.str indexing_technique)]
  let withForm :=
    if p.doc_form ≠ Json.null ∧ p.doc_form ≠ Json.str "" then
      base ++ [("doc_form", p.doc_form)]
    else base
  let withLang :=
    if p.doc_language ≠ Json.null ∧ p.doc_language ≠ Json.str "" then
      withForm ++ [("doc_language", p.doc_language)]
    else withForm
  Json.obj (withLang ++ [("process_rule", process_rule)])

/-- The response composer (lines 350-370): builds the summary parts and
yields the text message followed by the JSON payload.  `ms` holds the
members of the (dict) `result`; `metadata_result` is `Json.null` when no
assignment was attempted. -/
def composeMessages (document_name operation : String) (ms : List (String × Json))
    (final_document_id metadata_result : Json) (metadata_truthy : Bool) :
    Except PyError (List Message) := do
  let doc_info := Json.mgetD ms "document" (.obj [])
  let doc_id_display ← doc_info.pyGetD "id" (Json.pyOr final_document_id (.str "N/A"))
  let batch := Json.mgetD ms "batch" (.str "")
  let parts0 := ["Document '" ++ document_name ++ "' " ++ operation ++ "d successfully.",
                 "ID: " ++ doc_id_display.pyStr]
  let parts1 := if batch.truthy then parts0 ++ ["Batch: " ++ batch.pyStr] else parts0
  let parts2 ←
    if metadata_result.truthy then do
      let success ← metadata_result.pyGet "success"
      if success.truthy then
        pure (parts1 ++ ["Metadata assigned successfully."])
      else do
        let warn ← metadata_result.pyGet "message"
        pure (parts1 ++ ["Metadata warning: " ++ warn.pyStr])
    else if metadata_truthy then
      pure (parts1 ++ ["Warning: Metadata was provided but could not be assigned (no document ID)."])
    else
      pure parts1
  return [.text (String.intercalate " " parts2), .json (.obj ms)]

/-- The id embedded in the write response (lines 320-327): the `id` of the
nested `document` object, when that object is a dict (`Json.null` = Python
`None` otherwise). -/
def embeddedDocId (ms1 : List (String × Json)) : Json :=
  match Json.mget ms1 "document" with
  | .obj dms => Json.mget dms "id"
  | _ => .null

/-- Document-id extraction (lines 320-333): prefer the id embedded in the
response; when that is falsy and the resolver knew an id, fall back to the
resolver's id, injecting `{"id": ...}` into the result when it carries no
`document` key.  Returns the final document id together with the possibly
updated result members. -/
def finalDocPair (ms1 : List (String × Json)) (existing_document_id : Option String) :
    Json × List (String × Json) :=
  let embedded := embeddedDocId ms1
  let existingVal : Json :=
    match existing_document_id with
    | some s => .str s
    | none => .null
  if !embedded.truthy && existingVal.truthy then
    (existingVal,
      if (ms1.lookup "document").isSome then ms1
      else Json.objSet ms1 "document" (.obj [("id", existingVal)]))
  else (embedded, ms1)

/-- The messages actually yielded from the composer: a raised
`AttributeError` (non-dict `doc_info`) escapes to the outer generic
handler. -/
def composeOrError (x : Except PyError (List Message)) : List Message :=
  match x with
  | .ok msgs => msgs
  | .error e => [.text (invokeErrorMessage e)]

/-- Lines 320-370: document-id extraction, conditional metadata
assignment, and response composition.  `ms1` holds the members of the
write result after `result["operation"] = operation`;
`metadata_list` is the loaded metadata (`Json.null` when none). -/
def afterWrite (document_name operation dataset_id base_url : String) (env : Env)
    (existing_document_id : Option String) (ms1 : List (String × Json))
    (metadata_list : Json) (reqs : List Request) : InvokeResult :=
  let pair := finalDocPair ms1 existing_document_id
  let final_document_id := pair.1
  let ms2 := pair.2
  if metadata_list.truthy && final_document_id.truthy then
    let metaBody : Json := .obj [("operation_data", .arr [
        .obj [("document_id", final_document_id), ("metadata_list", metadata_list)]])]
    let metaReq := Request.metadataAssign
        (base_url ++ "/datasets/" ++ dataset_id ++ "/documents/metadata") metaBody
    let metadata_result := assignMetadata env.metaOutcome
    let ms3 := Json.objSet ms2 "metadata_assignment" metadata_result
    ⟨composeOrError (composeMessages document_name operation ms3 final_document_id
        metadata_result metadata_list.truthy), reqs ++ [metaReq]⟩
  else
    ⟨composeOrError (composeMessages document_name operation ms2 final_document_id .null
        metadata_list.truthy), reqs⟩

/-- The create-vs-update decision (lines 304-311): the operation name and
target URL chosen from the resolver's result (`if existing_document_id:`
is Python truthiness, so an empty-string id falls to the create branch). -/
def chosenOpUrl (dataset_base_url : String) (existing_document_id : Option String) :
    String × String :=
  match existing_document_id with
  | some docid =>
      if docid = "" then ("create", dataset_base_url ++ "/document/create-by-text")
      else ("update", dataset_base_url ++ "/documents/" ++ docid ++ "/update-by-text")
  | none => ("create", dataset_base_url ++ "/document/create-by-text")

/-- CPython's `TypeError` message for `x["operation"] = ...` on a
non-dict: lists reject string indices with their own wording, the other
types report not supporting item assignment. -/
def pySetItemErrorMsg : Json → String
  | .arr _ => "list indices must be integers or slices, not str"
  | j => "'" ++ j.typeName ++ "' object does not support item assignment"

/-- Lines 315-370: handling of the write call's response — status check,
body decoding, `result["operation"] = operation` (a `TypeError` on a
non-dict body), then `afterWrite`. -/
def afterWriteResponse (document_name operation dataset_id base_url : String) (env : Env)
    (existing_document_id : Option String) (response : HttpResponse)
    (metadata_list : Json) (reqs : List Request) : InvokeResult :=
  match raiseForStatus response ("Failed to " ++ operation ++ " document") with
  | .error e => ⟨[.text (invokeErrorMessage e)], reqs⟩
  | .ok _ =>
      match response.jsonBody with
      | .error emsg => ⟨[.text ("Error: " ++ emsg)], reqs⟩
      | .ok raw_result =>
          match raw_result with
          | .obj ms0 =>
              afterWrite document_name operation dataset_id base_url env
                existing_document_id (Json.objSet ms0 "operation" (.str operation))
                metadata_list reqs
          | other =>
              ⟨[.text ("Error: " ++ pySetItemErrorMsg other)], reqs⟩

/-- The `try` block of `_invoke` (lines 252-380), after the credential and
required-parameter checks, with `base_url` already stripped of trailing
slashes. -/
def invokeTry (p : ToolParams) (env : Env) (base_url : String) : InvokeResult :=
  let dataset_base_url := base_url ++ "/datasets/" ++ p.dataset_id
  match resolveIndexingTechnique p.indexing_technique with
  | .error e => ⟨[.text (invokeErrorMessage e)], []⟩
  | .ok indexing_technique =>
    match loadProcessRule p.process_rule with
    | .error (.jsonDecodeError m) =>
        ⟨[.text ("Invalid JSON format for process_rule: " ++ m)], []⟩
    | .error (.valueError m) => ⟨[.text ("Invalid process_rule: " ++ m)], []⟩
    | .error e => ⟨[.text (invokeErrorMessage e)], []⟩
    | .ok process_rule =>
      let data := buildData p indexing_technique process_rule
      match loadMetadata p.metadata_json with
      | .error (.jsonDecodeError m) =>
          ⟨[.text ("Invalid JSON format for metadata_json: " ++ m)], []⟩
      | .error (.valueError m) => ⟨[.text ("Invalid metadata_json: " ++ m)], []⟩
      | .error e => ⟨[.text (invokeErrorMessage e)], []⟩
      | .ok metadata_list =>
        let listReq := Request.listDocuments (dataset_base_url ++ "/documents") p.name 100 1
        match findDocumentIdByName env.listOutcome p.name with
        | .error e => ⟨[.text (invokeErrorMessage e)], [listReq]⟩
        | .ok existing_document_id =>
          let opUrl := chosenOpUrl dataset_base_url existing_document_id
          let operation := opUrl.1
          let writeReq := Request.writeDocument opUrl.2 data
          let reqs := [listReq, writeReq]
          match env.writeOutcome with
          | .timeout _ =>
              ⟨[.text "Request timed out. The document may still be processing."], reqs⟩
          | .exc m => ⟨[.text ("Error: " ++ m)], reqs⟩
          | .resp response =>
              afterWriteResponse p.name operation p.dataset_id base_url env
                existing_document_id response metadata_list reqs

/-- `_invoke` (lines 221-380): credential and required-parameter checks
(short-circuiting with a single text message and no outbound call), then
the `try` block. -/
def invoke (creds : Credentials) (p : ToolParams) (env : Env) : InvokeResult :=
  if !optTruthy creds.api_key then ⟨[.text "API key is required."], []⟩
  else if !optTruthy creds.base_url then ⟨[.text "Base URL is required."], []⟩
  else if p.dataset_id = "" then ⟨[.text "Dataset ID is required."], []⟩
  else if p.name = "" then ⟨[.text "Document name is required."], []⟩
  else if p.text = "" then ⟨[.text "Text content is required."], []⟩
  else invokeTry p env (rstripSlash (creds.base_url.getD ""))

/-! ## Observation helpers for the theorems -/

/-- Is this request the document write (create-by-text or update-by-text)? -/
def Request.isWriteDocument : Request → Bool
  | .writeDocument _ _ => true
  | _ => false

/-- Is this request the metadata assignment? -/
def Request.isMetadataAssign : Request → Bool
  | .metadataAssign _ _ => true
  | _ => false

/-- The document-write requests in the trace. -/
def InvokeResult.writes (res : InvokeResult) : List Request :=
  res.requests.filter Request.isWriteDocument

/-- The metadata-assignment requests in the trace. -/
def InvokeResult.metaAssigns (res : InvokeResult) : List Request :=
  res.requests.filter Request.isMetadataAssign

/-- The structured JSON payloads among the emitted messages. -/
def InvokeResult.jsonPayloads (res : InvokeResult) : List Json :=
  res.messages.filterMap fun m =>
    match m with
    | .json j => some j
    | .text _ => none

/-- The free-text messages among the emitted messages. -/
def InvokeResult.textMessages (res : InvokeResult) : List String :=
  res.messages.filterMap fun m =>
    match m with
    | .text s => some s
    | .json _ => none

/-- Does the first character list start with the second? -/
def charsHavePrefix : List Char → List Char → Bool
  | _, [] => true
  | [], _ :: _ => false
  | c :: cs, p :: ps => c == p && charsHavePrefix cs ps

/-- Does the first character list contain the second as a contiguous run? -/
def charsContain (s pat : List Char) : Bool :=
  match s with
  | [] => pat.isEmpty
  | _ :: rest => charsHavePrefix s pat || charsContain rest pat

/-- Substring test (for "the message contains the detail"). -/
def strContains (s pattern : String) : Bool :=
  charsContain s.data pattern.data

/-! ## The provider's credential validation
(`provider/knowledge_pro.py`, lines 10-55) -/

/-- What the `requests.get` of `_validate_credentials` does:
`requests.exceptions.ConnectionError` and `requests.exceptions.Timeout`
are caught separately from other exceptions. -/
inductive ReqOutcome where
  | resp (r : HttpResponse)
  | connectionError
  | timeout
  | exc (emsg : String)
deriving Repr, DecidableEq

/-- The provider credentials mapping (`none` = key absent). -/
structure ProviderCredentials where
  api_key : Option String := none
  base_url : Option String := none
deriving Repr, DecidableEq

/-- `_validate_credentials` (lines 10-55): `.error msg` models raising
`ToolProviderCredentialValidationError(msg)`. -/
def validateCredentials (creds : ProviderCredentials) (outcome : ReqOutcome) :
    Except String Unit :=
  if !optTruthy creds.api_key then
    .error "Dify API key is required."
  else if !optTruthy creds.base_url then
    .error "Dify API base URL is required."
  else
    match outcome with
    | .resp response =>
        if response.status = 401 then
          .error "Invalid API key. Please check your credentials."
        else if response.status = 403 then
          .error "Access forbidden. Please check your API key permissions."
        else if response.status ≠ 200 then
          .error ("Failed to validate credentials: " ++ toString response.status
            ++ " - " ++ response.text)
        else .ok ()
    | .connectionError => .error "Failed to connect to Dify API. Please check your base URL."
    | .timeout => .error "Connection to Dify API timed out. Please try again."
    | .exc emsg => .error emsg

/-! ## Auxiliary lemmas -/

@[simp] theorem exceptPure_eq {ε α : Type} (a : α) : (pure a : Except ε α) = .ok a := rfl

@[simp] theorem exceptThrow_eq {ε α : Type} (e : ε) : (throw e : Except ε α) = .error e := rfl

@[simp] theorem exceptBind_ok {ε α β : Type} (a : α) (f : α → Except ε β) :
    (Except.ok a : Except ε α) >>= f = f a := rfl

@[simp] theorem exceptBind_err {ε α β : Type} (e : ε) (f : α → Except ε β) :
    (Except.error e : Except ε α) >>= f = .error e := rfl

theorem pyGet_obj (ms : List (String × Json)) (k : String) :
    (Json.obj ms).pyGet k = .ok (Json.mget ms k) := rfl

theorem pyGet_nonobj (j : Json) (k : String) (h : j.isObj = false) :
    j.pyGet k = .error (.attributeError ("'" ++ j.typeName ++ "' object has no attribute 'get'")) := by
  cases j <;> simp_all [Json.pyGet, Json.isObj]

theorem objSet_cons_eq (k : String) (v0 v : Json) (rest : List (String × Json)) :
    Json.objSet ((k, v0) :: rest) k v = (k, v) :: rest := by
  simp [Json.objSet]

theorem objSet_cons_ne (k0 k : String) (v0 v : Json) (rest : List (String × Json))
    (h : k0 ≠ k) : Json.objSet ((k0, v0) :: rest) k v = (k0, v0) :: Json.objSet rest k v := by
  simp [Json.objSet, h]

theorem mget_nil (k : String) : Json.mget [] k = Json.null := rfl

theorem mget_cons_eq (k0 : String) (v0 : Json) (rest : List (String × Json)) :
    Json.mget ((k0, v0) :: rest) k0 = v0 := by
  simp [Json.mget, List.lookup]

theorem mget_cons_ne (k' k0 : String) (v0 : Json) (rest : List (String × Json))
    (h : k' ≠ k0) : Json.mget ((k0, v0) :: rest) k' = Json.mget rest k' := by
  simp only [Json.mget, List.lookup, beq_eq_false_iff_ne.mpr h]

theorem mget_objSet_same (ms : List (String × Json)) (k : String) (v : Json) :
    Json.mget (Json.objSet ms k v) k = v := by
  induction ms with
  | nil => simp [Json.objSet, Json.mget, List.lookup]
  | cons m rest ih =>
      obtain ⟨k', v'⟩ := m
      by_cases h : k' = k
      · subst h; rw [objSet_cons_eq, mget_cons_eq]
      · rw [objSet_cons_ne _ _ _ _ _ h, mget_cons_ne _ _ _ _ (fun e => h e.symm), ih]

theorem mget_objSet_other (ms : List (String × Json)) (k k' : String) (v : Json)
    (h : k' ≠ k) : Json.mget (Json.objSet ms k v) k' = Json.mget ms k' := by
  induction ms with
  | nil => simp [Json.objSet, mget_nil, mget_cons_ne _ _ _ _ h]
  | cons m rest ih =>
      obtain ⟨k0, v0⟩ := m
      by_cases h0 : k0 = k
      · subst h0
        rw [objSet_cons_eq, mget_cons_ne _ _ _ _ h, mget_cons_ne _ _ _ _ h]
      · by_cases h1 : k' = k0
        · subst h1
          rw [objSet_cons_ne _ _ _ _ _ h0, mget_cons_eq, mget_cons_eq]
        · rw [objSet_cons_ne _ _ _ _ _ h0, mget_cons_ne _ _ _ _ h1,
            mget_cons_ne _ _ _ _ h1, ih]

theorem lookup_cons_ne_of_ne (k' k0 : String) (v0 : Json) (rest : List (String × Json))
    (h : k' ≠ k0) : List.lookup k' ((k0, v0) :: rest) = List.lookup k' rest := by
  simp only [List.lookup, beq_eq_false_iff_ne.mpr h]

theorem lookup_objSet_isSome_other (ms : List (String × Json)) (k k' : String) (v : Json)
    (h : k' ≠ k) : ((Json.objSet ms k v).lookup k').isSome = (ms.lookup k').isSome := by
  induction ms with
  | nil => simp [Json.objSet, lookup_cons_ne_of_ne _ _ _ _ h]
  | cons m rest ih =>
      obtain ⟨k0, v0⟩ := m
      by_cases h0 : k0 = k
      · subst h0
        rw [objSet_cons_eq, lookup_cons_ne_of_ne _ _ _ _ h, lookup_cons_ne_of_ne _ _ _ _ h]
      · by_cases h1 : k' = k0
        · subst h1
          rw [objSet_cons_ne _ _ _ _ _ h0]
          simp [List.lookup]
        · rw [objSet_cons_ne _ _ _ _ _ h0, lookup_cons_ne_of_ne _ _ _ _ h1,
            lookup_cons_ne_of_ne _ _ _ _ h1, ih]

theorem charsHavePrefix_extend : ∀ (s t p : List Char),
    charsHavePrefix s p = true → charsHavePrefix (s ++ t) p = true
  | _, _, [], _ => by simp [charsHavePrefix]
  | [], _, _ :: _, h => by simp [charsHavePrefix] at h
  | c :: cs, t, q :: qs, h => by
      simp only [charsHavePrefix, Bool.and_eq_true] at h ⊢
      exact ⟨h.1, charsHavePrefix_extend cs t qs h.2⟩

theorem charsHavePrefix_self_append (p rest : List Char) :
    charsHavePrefix (p ++ rest) p = true := by
  induction p with
  | nil => simp [charsHavePrefix]
  | cons c cs ih => simp [charsHavePrefix, ih]

theorem charsContain_nil_pattern (s : List Char) : charsContain s [] = true := by
  cases s <;> simp [charsContain, charsHavePrefix]

theorem charsContain_of_prefix : ∀ (s p : List Char),
    charsHavePrefix s p = true → charsContain s p = true
  | [], p, h => by
      cases p <;> simp_all [charsHavePrefix, charsContain]
  | _ :: _, _, h => by simp [charsContain, h]

theorem charsContain_append_left : ∀ (s t p : List Char),
    charsContain s p = true → charsContain (s ++ t) p = true
  | [], t, p, h => by
      cases p <;> simp_all [charsContain, charsContain_nil_pattern]
  | c :: cs, t, p, h => by
      simp only [charsContain, Bool.or_eq_true] at h
      rcases h with h | h
      · simp only [List.cons_append, charsContain, Bool.or_eq_true]
        exact Or.inl (charsHavePrefix_extend (c :: cs) t p h)
      · simp only [List.cons_append, charsContain, Bool.or_eq_true]
        exact Or.inr (charsContain_append_left cs t p h)

theorem charsContain_append_right : ∀ (s t p : List Char),
    charsContain t p = true → charsContain (s ++ t) p = true
  | [], t, p, h => by simpa using h
  | c :: cs, t, p, h => by
      simp only [List.cons_append, charsContain, Bool.or_eq_true]
      exact Or.inr (charsContain_append_right cs t p h)

theorem strContains_append_left (a b pat : String) (h : strContains a pat = true) :
    strContains (a ++ b) pat = true := by
  simpa [strContains, String.data_append] using charsContain_append_left a.data b.data pat.data h

theorem strContains_append_right (a b pat : String) (h : strContains b pat = true) :
    strContains (a ++ b) pat = true := by
  simpa [strContains, String.data_append] using charsContain_append_right a.data b.data pat.data h

theorem strContains_self (pat : String) : strContains pat pat = true := by
  have := charsHavePrefix_self_append pat.data []
  simp only [List.append_nil] at this
  exact charsContain_of_prefix pat.data pat.data this

/-- The tail a separator-join appends after its first element:
`String.intercalate s (a :: l) = a ++ sepJoinTail s l`. -/
def sepJoinTail (s : String) : List String → String
  | [] => ""
  | x :: t => s ++ x ++ sepJoinTail s t

theorem intercalate_go_eq (s : String) : ∀ (l : List String) (acc : String),
    String.intercalate.go acc s l = acc ++ sepJoinTail s l := by
  intro l
  induction l with
  | nil => intro acc; simp [String.intercalate.go, sepJoinTail]
  | cons x t ih =>
      intro acc
      simp [String.intercalate.go, sepJoinTail, ih, String.append_assoc]

theorem intercalate_cons (s a : String) (l : List String) :
    String.intercalate s (a :: l) = a ++ sepJoinTail s l := by
  simp [String.intercalate, intercalate_go_eq]

theorem strContains_leading (pat b : String) : strContains (pat ++ b) pat = true := by
  have h : charsHavePrefix (pat.data ++ b.data) pat.data = true :=
    charsHavePrefix_self_append pat.data b.data
  have := charsContain_of_prefix (pat.data ++ b.data) pat.data h
  simpa [strContains, String.data_append] using this

theorem sepJoinTail_contains_last (s w pat : String) (hw : strContains w pat = true) :
    ∀ l : List String, strContains (sepJoinTail s (l ++ [w])) pat = true
  | [] => by
      simp only [List.nil_append, sepJoinTail]
      exact strContains_append_left _ _ _ (strContains_append_right _ _ _ hw)
  | x :: t => by
      simp only [List.cons_append, sepJoinTail]
      exact strContains_append_right _ _ _ (sepJoinTail_contains_last s w pat hw t)

theorem intercalate_contains_last (s w a pat : String) (l : List String)
    (hw : strContains w pat = true) :
    strContains (String.intercalate s (a :: (l ++ [w]))) pat = true := by
  rw [intercalate_cons]
  exact strContains_append_right _ _ _ (sepJoinTail_contains_last s w pat hw l)

theorem intercalate_contains_head (s a pat : String) (l : List String)
    (h : strContains a pat = true) :
    strContains (String.intercalate s (a :: l)) pat = true := by
  rw [intercalate_cons]
  exact strContains_append_left _ _ _ h

/-! ## Claim C2 — the Document Resolver's matching rule -/

/-- Spec-side predicate: a listing entry whose `name` field equals the
target exactly (case-sensitive, no normalization). -/
def isExactNameMatch (document_name : String) (item : Json) : Bool :=
  match item with
  | .obj ms => Json.mget ms "name" = .str document_name
  | _ => false

/-- An entry whose `id` field is a non-empty string. -/
def hasUsableId (item : Json) : Bool :=
  match item with
  | .obj ms =>
      match Json.mget ms "id" with
      | .str s => s != ""
      | _ => false
  | _ => false

/-- The `id` string of an entry, when it is one. -/
def entryId (item : Json) : Option String :=
  match item with
  | .obj ms =>
      match Json.mget ms "id" with
      | .str s => some s
      | _ => none
  | _ => none

/-- Spec-side resolver rule (amended form of claim C2): the id of the
first entry in received order whose name matches exactly AND whose id is a
non-empty string. -/
def firstUsableMatch (document_name : String) (docs : List Json) : Option String :=
  (docs.find? fun item => isExactNameMatch document_name item && hasUsableId item).bind entryId

theorem scanDocuments_eq_firstUsableMatch (document_name : String) (docs : List Json) :
    scanDocuments document_name docs = firstUsableMatch document_name docs := by
  induction docs with
  | nil => rfl
  | cons item rest ih =>
      cases item with
      | obj ms =>
          by_cases hname : Json.mget ms "name" = .str document_name
          · rcases hid : Json.mget ms "id" with _ | b | n | s | es | mm
            case pos.str =>
              by_cases hs : s = ""
              · subst hs
                simpa [scanDocuments, firstUsableMatch, List.find?, isExactNameMatch,
                  hasUsableId, hname, hid] using ih
              · have hs' : (s != "") = true := bne_iff_ne.mpr hs
                simp [scanDocuments, firstUsableMatch, List.find?, isExactNameMatch,
                  hasUsableId, entryId, hname, hid, hs, hs']
            all_goals
              simpa [scanDocuments, firstUsableMatch, List.find?, isExactNameMatch,
                hasUsableId, hname, hid] using ih
          · simpa [scanDocuments, firstUsableMatch, List.find?, isExactNameMatch,
              hasUsableId, hname] using ih
      | _ =>
          simpa [scanDocuments, firstUsableMatch, List.find?, isExactNameMatch,
            hasUsableId] using ih

/-- Claim C2 as stated is false: in the listing payload
`{"data": [{"name": "B", "id": 7}, {"name": "B", "id": "2"}]}` with target
`"B"`, the first entry in received order whose `name` equals `"B"` is the
first one (its id is the number `7`), yet `_find_document_id_by_name`
skips it (its id is not a non-empty string) and returns `"2"`, the id of
the SECOND matching entry — so the returned id is not the id of the first
entry whose name matches. -/
theorem c2_counterexample :
    findDocIdInPayload
        (.obj [("data", .arr
          [.obj [("name", .str "B"), ("id", .num 7)],
           .obj [("name", .str "B"), ("id", .str "2")]])]) "B" = some "2"
    ∧ isExactNameMatch "B" (.obj [("name", .str "B"), ("id", .num 7)]) = true
    ∧ entryId (.obj [("name", .str "B"), ("id", .num 7)]) ≠ some "2" := by
  refine ⟨by decide, by decide, by decide⟩

/-- Claim C2, amended: for every listing payload,
`_find_document_id_by_name`'s pure scan returns the id of the first entry
in received order whose `name` field equals the target exactly
(case-sensitive, no normalization) AND whose `id` field is a non-empty
string; it returns `none` when no such entry exists or when the payload
has no `data` array (in particular a case-different or substring
near-miss never counts as a match, since `isExactNameMatch` is exact
string equality). -/
theorem c2_resolver_first_exact_match (payload : Json) (document_name : String) :
    findDocIdInPayload payload document_name =
      (match payload with
       | .obj pms =>
           match Json.mget pms "data" with
           | .arr documents => firstUsableMatch document_name documents
           | _ => none
       | _ => none) := by
  cases payload with
  | obj pms =>
      simp only [findDocIdInPayload]
      cases Json.mget pms "data" <;>
        simp [scanDocuments_eq_firstUsableMatch]
  | _ => rfl

/-! ## Claim C5 — when `max_tokens` is required -/

/-- Complete behaviour of `_validate_segmentation_rules` on a dict whose
`separator` is a string: the `max_tokens` checks run exactly when NOT
(`mode == "hierarchical"` and `parent_mode == "full-doc"`). -/
theorem validateSegmentationRules_characterization
    (seg : List (String × Json)) (mode parent_mode sep : Json)
    (hsep_val : Json.mget seg "separator" = sep) (hsep : sep.isStr = true) :
    validateSegmentationRules (.obj seg) mode parent_mode =
      (if mode = .str "hierarchical" ∧ parent_mode = .str "full-doc" then .ok ()
       else if Json.mget seg "max_tokens" = .null then
         .error (.valueError "Process rule segmentation max_tokens is required")
       else if (Json.mget seg "max_tokens").isInt = false then
         .error (.valueError "Process rule segmentation max_tokens must be an integer")
       else .ok ()) := by
  rcases sep with _ | b | n | s | es | mm <;> simp [Json.isStr] at hsep
  by_cases hex : mode = Json.str "hierarchical" ∧ parent_mode = Json.str "full-doc"
  · simp [validateSegmentationRules, pyGet_obj, hsep_val, hex, Json.isStr]
  · by_cases hmt : Json.mget seg "max_tokens" = Json.null
    · simp [validateSegmentationRules, pyGet_obj, hsep_val, hex, hmt, Json.isStr]
    · by_cases hint : (Json.mget seg "max_tokens").isInt = false <;>
        simp [validateSegmentationRules, pyGet_obj, hsep_val, hex, hmt, hint, Json.isStr]

/-- Under a mode in {custom, hierarchical} with truthy `rules` whose
pre-processing rules validate, `_validate_process_rule_structure` reduces
to the segmentation check. -/
theorem validateProcessRuleStructure_to_segmentation
    (pms rms : List (String × Json)) (mode : Json)
    (hmode_val : Json.mget pms "mode" = mode)
    (hmode : mode = .str "custom" ∨ mode = .str "hierarchical")
    (hrules : Json.mget pms "rules" = .obj rms)
    (hrms : rms ≠ [])
    (hppr : validatePreProcessingRules (Json.mget rms "pre_processing_rules") = .ok ()) :
    validateProcessRuleStructure (.obj pms) =
      validateSegmentationRules (Json.mget rms "segmentation") mode
        (Json.mget rms "parent_mode") := by
  have htr : (Json.obj rms).truthy = true := by
    cases rms with
    | nil => simp at hrms
    | cons a l => simp [Json.truthy, List.isEmpty]
  rcases hmode with h | h <;> subst h <;>
    simp [validateProcessRuleStructure, pyGet_obj, hmode_val, hrules, hppr, htr]

/-- Claim C5: for a process rule whose mode is `custom` or `hierarchical`,
whose `rules` is a non-empty dict with pre-processing rules that validate
and a `segmentation` dict carrying a string `separator`: a missing
`max_tokens` (absent key or JSON null — Python conflates the two through
`dict.get`) is accepted exactly when the mode is `hierarchical` AND
`rules.parent_mode` is `"full-doc"`; in every other case a missing
`max_tokens` is rejected with the `InvalidConfiguration` error (embedded
as `PyError.valueError`, which `_invoke` reports as
"Invalid process_rule: ..."), and a present `max_tokens` that is not an
integer (in the Python sense, where `bool` is a subclass of `int`) is
likewise rejected. -/
theorem c5_max_tokens_requirement
    (pms rms seg : List (String × Json)) (mode sep : Json)
    (hmode_val : Json.mget pms "mode" = mode)
    (hmode : mode = .str "custom" ∨ mode = .str "hierarchical")
    (hrules : Json.mget pms "rules" = .obj rms)
    (hrms : rms ≠ [])
    (hppr : validatePreProcessingRules (Json.mget rms "pre_processing_rules") = .ok ())
    (hseg : Json.mget rms "segmentation" = .obj seg)
    (hsep_val : Json.mget seg "separator" = sep) (hsep : sep.isStr = true) :
    (Json.mget seg "max_tokens" = .null →
       (validateProcessRuleStructure (.obj pms) = .ok ()
         ↔ (mode = .str "hierarchical" ∧ Json.mget rms "parent_mode" = .str "full-doc")))
    ∧ (Json.mget seg "max_tokens" = .null →
         ¬(mode = .str "hierarchical" ∧ Json.mget rms "parent_mode" = .str "full-doc") →
         validateProcessRuleStructure (.obj pms) =
           .error (.valueError "Process rule segmentation max_tokens is required"))
    ∧ (¬(mode = .str "hierarchical" ∧ Json.mget rms "parent_mode" = .str "full-doc") →
         Json.mget seg "max_tokens" ≠ .null →
         (Json.mget seg "max_tokens").isInt = false →
         validateProcessRuleStructure (.obj pms) =
           .error (.valueError "Process rule segmentation max_tokens must be an integer")) := by
  have hpipe := validateProcessRuleStructure_to_segmentation pms rms mode
    hmode_val hmode hrules hrms hppr
  rw [hseg] at hpipe
  have hchar := validateSegmentationRules_characterization seg mode
    (Json.mget rms "parent_mode") sep hsep_val hsep
  rw [hchar] at hpipe
  refine ⟨?_, ?_, ?_⟩
  · intro hmt
    rw [hpipe]
    by_cases hex : mode = Json.str "hierarchical" ∧ Json.mget rms "parent_mode" = Json.str "full-doc" <;>
      simp [hex, hmt]
  · intro hmt hex
    rw [hpipe]
    simp [hex, hmt]
  · intro hex hmt hint
    rw [hpipe]
    simp [hex, hmt, hint]

/-- Witness for C5: a `hierarchical` / `"full-doc"` rule whose
segmentation has a separator but no `max_tokens` validates. -/
theorem c5_witness :
    validateProcessRuleStructure (.obj
      [("mode", .str "hierarchical"),
       ("rules", .obj
         [("pre_processing_rules", .arr []),
          ("parent_mode", .str "full-doc"),
          ("segmentation", .obj [("separator", .str "***")])])]) = .ok () :=
  ((c5_max_tokens_requirement
      [("mode", .str "hierarchical"),
       ("rules", .obj
         [("pre_processing_rules", .arr []),
          ("parent_mode", .str "full-doc"),
          ("segmentation", .obj [("separator", .str "***")])])]
      [("pre_processing_rules", .arr []),
       ("parent_mode", .str "full-doc"),
       ("segmentation", .obj [("separator", .str "***")])]
      [("separator", .str "***")]
      (.str "hierarchical") (.str "***")
      (by decide) (Or.inr rfl) (by decide) (by decide) (by decide)
      (by decide) (by decide) (by decide)).1 (by decide)).mpr ⟨rfl, by decide⟩

/-! ## Claim C7 — round-trip idempotence of the Process-Rule Validator -/

theorem validateReturn_ok (j pr : Json)
    (h : (validateProcessRuleStructure j >>= fun _ => (pure j : Except PyError Json)) = .ok pr) :
    validateProcessRuleStructure j = .ok () ∧ j = pr := by
  cases hv : validateProcessRuleStructure j with
  | ok u =>
      cases u
      rw [hv] at h
      simp at h
      exact ⟨rfl, h⟩
  | error e =>
      rw [hv] at h
      simp at h

/-- Claim C7: for every input the Validator accepts, feeding its
normalized output back into the Validator (as the JSON text that output
serializes to, i.e. `RawText.wellFormed` of the very same value — JSON
round-trips through `json.dumps`/`json.loads`) succeeds again and returns
a structure identical to that output. -/
theorem c7_validator_roundtrip (x : RawText) (pr : Json)
    (h : loadProcessRule x = .ok pr) :
    loadProcessRule (.wellFormed pr) = .ok pr := by
  have hval : validateProcessRuleStructure pr = .ok () := by
    cases x with
    | absent =>
        simp only [loadProcessRule] at h
        obtain ⟨hv, he⟩ := validateReturn_ok _ _ h
        exact he ▸ hv
    | blank =>
        simp only [loadProcessRule] at h
        obtain ⟨hv, he⟩ := validateReturn_ok _ _ h
        exact he ▸ hv
    | wellFormed j =>
        simp only [loadProcessRule] at h
        obtain ⟨hv, he⟩ := validateReturn_ok _ _ h
        exact he ▸ hv
    | notString v => simp [loadProcessRule] at h
    | malformed m => simp [loadProcessRule] at h
  simp [loadProcessRule, hval]

/-- Witness for C7 at the default (automatic) rule. -/
theorem c7_witness :
    loadProcessRule (.wellFormed DEFAULT_PROCESS_RULE) = .ok DEFAULT_PROCESS_RULE :=
  c7_validator_roundtrip .absent DEFAULT_PROCESS_RULE (by decide)

/-! ## Claim C9 — asymmetric success criteria of the two write paths -/

/-- Claim C9: `_assign_metadata` reports `{success: true}` exactly when
the metadata call returned HTTP 200 (any other status, 2xx included, is a
failure record), while `_raise_for_status` accepts every status in
[200, 300). -/
theorem c9_success_criteria (r : HttpResponse) (m : String) :
    ((assignMetadata (.resp r)).pyGet "success" = .ok (.bool true) ↔ r.status = 200)
    ∧ (raiseForStatus r m = .ok () ↔ (200 ≤ r.status ∧ r.status < 300)) := by
  constructor
  · by_cases h : r.status = 200
    · simp [assignMetadata, h, Json.pyGet, List.lookup]
    · simp [assignMetadata, h, Json.pyGet, List.lookup]
  · by_cases h : 200 ≤ r.status ∧ r.status < 300 <;>
      simp [raiseForStatus, h]

/-- Witness for C9 at status 201: the metadata path reports failure while
the document-write path accepts. -/
theorem c9_witness :
    raiseForStatus ⟨201, "", .error "e"⟩ "w" = .ok ()
    ∧ ¬((assignMetadata (.resp ⟨201, "", .error "e"⟩)).pyGet "success" = .ok (.bool true)) := by
  constructor
  · exact (c9_success_criteria ⟨201, "", .error "e"⟩ "w").2.mpr (by decide)
  · intro hcontra
    have := (c9_success_criteria ⟨201, "", .error "e"⟩ "w").1.mp hcontra
    simp at this

/-! ## Claim C10 — non-object process_rule raises AttributeError -/

/-- Claim C10: a `process_rule` string that parses as valid JSON but not
as a JSON object makes `_load_process_rule` raise `AttributeError` (from
`.get` on a non-dict), not `ValueError` or `json.JSONDecodeError`; the
invocation therefore reports the generic `"Error: ..."` text message
instead of `"Invalid process_rule: ..."` or
`"Invalid JSON format for process_rule: ..."`. -/
theorem c10_nonobject_process_rule (v : Json) (creds : Credentials) (p : ToolParams)
    (env : Env) (itech : String)
    (hv : v.isObj = false)
    (hk : optTruthy creds.api_key = true) (hb : optTruthy creds.base_url = true)
    (hd : p.dataset_id ≠ "") (hn : p.name ≠ "") (ht : p.text ≠ "")
    (hidx : resolveIndexingTechnique p.indexing_technique = .ok itech)
    (hpr : p.process_rule = .wellFormed v) :
    loadProcessRule p.process_rule =
      .error (.attributeError ("'" ++ v.typeName ++ "' object has no attribute 'get'"))
    ∧ (invoke creds p env).messages =
        [.text ("Error: '" ++ v.typeName ++ "' object has no attribute 'get'")] := by
  have hload : loadProcessRule (.wellFormed v) =
      .error (.attributeError ("'" ++ v.typeName ++ "' object has no attribute 'get'")) := by
    simp [loadProcessRule, validateProcessRuleStructure, pyGet_nonobj v _ hv]
  refine ⟨hpr ▸ hload, ?_⟩
  simp only [invoke, hk, hb, hd, hn, ht, invokeTry, hidx, hpr, hload, invokeErrorMessage,
    Bool.not_true, Bool.false_eq_true, if_false, if_neg hd, if_neg hn, if_neg ht]
  have key : ∀ Y : String, ("Error: " ++ ("'" ++ Y) : String) = "Error: '" ++ Y := by
    intro Y
    have h1 : ("Error: " ++ "'" : String) = "Error: '" := rfl
    calc ("Error: " ++ ("'" ++ Y) : String)
        = ("Error: " ++ "'") ++ Y := (String.append_assoc _ _ _).symm
      _ = "Error: '" ++ Y := by rw [h1]
  simp only [String.append_assoc]
  rw [key]

/-- Witness for C10 with a JSON array as process_rule. -/
theorem c10_witness :
    loadProcessRule (.wellFormed (.arr [])) =
      .error (.attributeError "'list' object has no attribute 'get'")
    ∧ (invoke ⟨some "k", some "http://h/v1"⟩
        { dataset_id := "D1", name := "N", text := "T", process_rule := .wellFormed (.arr []) }
        ⟨.resp ⟨200, "", .ok (.obj [])⟩, .resp ⟨200, "", .ok (.obj [])⟩,
         .resp ⟨200, "", .ok (.obj [])⟩⟩).messages =
        [.text "Error: 'list' object has no attribute 'get'"] := by
  simpa using c10_nonobject_process_rule (.arr []) ⟨some "k", some "http://h/v1"⟩
    { dataset_id := "D1", name := "N", text := "T", process_rule := .wellFormed (.arr []) }
    ⟨.resp ⟨200, "", .ok (.obj [])⟩, .resp ⟨200, "", .ok (.obj [])⟩,
     .resp ⟨200, "", .ok (.obj [])⟩⟩ "high_quality"
    (by decide) (by decide) (by decide) (by decide) (by decide) (by decide)
    (by decide) rfl

/-! ## Claim C8 — the provider's credential-outcome mapping -/

/-- Claim C8: with non-empty credentials, the lightweight authenticated
read maps 401 to the invalid-key error, 403 to the insufficient-permission
error, a connection failure to the bad-base-URL error, a timeout to the
retry-later error, any other non-200 status to the generic failure
surfacing status and body verbatim, and 200 to success. -/
theorem c8_credential_validation (creds : ProviderCredentials)
    (hk : optTruthy creds.api_key = true) (hb : optTruthy creds.base_url = true) :
    (∀ r : HttpResponse, r.status = 401 →
        validateCredentials creds (.resp r) =
          .error "Invalid API key. Please check your credentials.")
    ∧ (∀ r : HttpResponse, r.status = 403 →
        validateCredentials creds (.resp r) =
          .error "Access forbidden. Please check your API key permissions.")
    ∧ validateCredentials creds .connectionError =
        .error "Failed to connect to Dify API. Please check your base URL."
    ∧ validateCredentials creds .timeout =
        .error "Connection to Dify API timed out. Please try again."
    ∧ (∀ r : HttpResponse, r.status ≠ 401 → r.status ≠ 403 → r.status ≠ 200 →
        validateCredentials creds (.resp r) =
          .error ("Failed to validate credentials: " ++ toString r.status
            ++ " - " ++ r.text))
    ∧ (∀ r : HttpResponse, r.status = 200 →
        validateCredentials creds (.resp r) = .ok ()) := by
  refine ⟨fun r h => ?_, fun r h => ?_, ?_, ?_, fun r h1 h2 h3 => ?_, fun r h => ?_⟩ <;>
    simp [validateCredentials, hk, hb, *]

/-- Witness for C8 at a 401 response. -/
theorem c8_witness :
    validateCredentials ⟨some "k", some "http://h/v1"⟩ (.resp ⟨401, "denied", .error "e"⟩) =
      .error "Invalid API key. Please check your credentials." :=
  (c8_credential_validation ⟨some "k", some "http://h/v1"⟩ (by decide) (by decide)).1
    ⟨401, "denied", .error "e"⟩ rfl

/-! ## Reduction lemmas for the `_invoke` workflow -/

theorem mgetD_eq_of_mget_ne_null (ms : List (String × Json)) (k : String) (d : Json)
    (h : Json.mget ms k ≠ .null) : Json.mgetD ms k d = Json.mget ms k := by
  unfold Json.mget Json.mgetD at *
  cases hl : ms.lookup k with
  | some v => simp
  | none => rw [hl] at h; simp at h

theorem mgetD_of_lookup_none (ms : List (String × Json)) (k : String) (d : Json)
    (h : ms.lookup k = none) : Json.mgetD ms k d = d := by
  unfold Json.mgetD
  rw [h]

theorem mget_of_lookup_none (ms : List (String × Json)) (k : String)
    (h : ms.lookup k = none) : Json.mget ms k = .null := by
  unfold Json.mget
  rw [h]
  rfl

theorem embeddedDocId_objSet_ne (ms : List (String × Json)) (k : String) (v : Json)
    (h : k ≠ "document") :
    embeddedDocId (Json.objSet ms k v) = embeddedDocId ms := by
  unfold embeddedDocId
  rw [mget_objSet_other ms k "document" v (fun e => h e.symm)]

/-- With valid credentials and required parameters, successful loads, a
resolved listing, and a 2xx write whose body decodes to a dict, the
invocation reduces to `afterWrite` with the trace of the two calls made so
far. -/
theorem invoke_success_shape (creds : Credentials) (p : ToolParams) (env : Env)
    (itech : String) (pr ml : Json) (exdoc : Option String) (r : HttpResponse)
    (rf : List (String × Json))
    (hk : optTruthy creds.api_key = true) (hb : optTruthy creds.base_url = true)
    (hd : p.dataset_id ≠ "") (hn : p.name ≠ "") (ht : p.text ≠ "")
    (hidx : resolveIndexingTechnique p.indexing_technique = .ok itech)
    (hpr : loadProcessRule p.process_rule = .ok pr)
    (hmd : loadMetadata p.metadata_json = .ok ml)
    (hfind : findDocumentIdByName env.listOutcome p.name = .ok exdoc)
    (hwo : env.writeOutcome = .resp r)
    (hst : 200 ≤ r.status ∧ r.status < 300)
    (hbody : r.jsonBody = .ok (.obj rf)) :
    invoke creds p env =
      (let bu := rstripSlash (creds.base_url.getD "")
       let dbu := bu ++ "/datasets/" ++ p.dataset_id
       afterWrite p.name (chosenOpUrl dbu exdoc).1 p.dataset_id bu env exdoc
         (Json.objSet rf "operation" (.str (chosenOpUrl dbu exdoc).1)) ml
         [.listDocuments (dbu ++ "/documents") p.name 100 1,
          .writeDocument (chosenOpUrl dbu exdoc).2 (buildData p itech pr)]) := by
  simp only [invoke, hk, hb, Bool.not_true, Bool.false_eq_true, if_false,
    if_neg hd, if_neg hn, if_neg ht]
  simp only [invokeTry, hidx, hpr, hmd, hfind, hwo]
  simp only [afterWriteResponse, raiseForStatus, if_pos hst, hbody]

theorem afterWrite_requests_of_not_truthy (dn op di bu : String) (env : Env)
    (ex : Option String) (ms1 : List (String × Json)) (ml : Json) (reqs : List Request)
    (h : ml.truthy = false) :
    (afterWrite dn op di bu env ex ms1 ml reqs).requests = reqs := by
  simp [afterWrite, h]

theorem afterWriteResponse_requests_of_not_truthy (dn op di bu : String) (env : Env)
    (ex : Option String) (response : HttpResponse) (ml : Json) (reqs : List Request)
    (h : ml.truthy = false) :
    (afterWriteResponse dn op di bu env ex response ml reqs).requests = reqs := by
  unfold afterWriteResponse
  cases raiseForStatus response ("Failed to " ++ op ++ " document") with
  | error e => rfl
  | ok u =>
      cases response.jsonBody with
      | error e => rfl
      | ok j =>
          cases j <;>
            simp [afterWrite_requests_of_not_truthy _ _ _ _ _ _ _ _ _ h]

theorem invokeTry_metaAssigns_of_not_truthy (p : ToolParams) (env : Env) (b : String)
    (ml : Json) (hload : loadMetadata p.metadata_json = .ok ml)
    (hml : ml.truthy = false) :
    (invokeTry p env b).metaAssigns = [] := by
  unfold invokeTry
  repeat' split
  all_goals
    simp_all [InvokeResult.metaAssigns, List.filter, Request.isMetadataAssign,
      afterWriteResponse_requests_of_not_truthy]

theorem invoke_metaAssigns_of_not_truthy (creds : Credentials) (p : ToolParams)
    (env : Env) (ml : Json) (hload : loadMetadata p.metadata_json = .ok ml)
    (hml : ml.truthy = false) :
    (invoke creds p env).metaAssigns = [] := by
  unfold invoke
  repeat' split
  all_goals
    first
      | exact invokeTry_metaAssigns_of_not_truthy p env _ ml hload hml
      | simp [InvokeResult.metaAssigns, List.filter]

theorem pyGetD_obj (ms : List (String × Json)) (k : String) (d : Json) :
    (Json.obj ms).pyGetD k d = .ok (Json.mgetD ms k d) := rfl

theorem lookup_objSet_same (ms : List (String × Json)) (k : String) (v : Json) :
    (Json.objSet ms k v).lookup k = some v := by
  induction ms with
  | nil => simp [Json.objSet, List.lookup]
  | cons m rest ih =>
      obtain ⟨k0, v0⟩ := m
      by_cases h0 : k0 = k
      · subst h0; rw [objSet_cons_eq]; simp [List.lookup]
      · rw [objSet_cons_ne _ _ _ _ _ h0,
          lookup_cons_ne_of_ne _ _ _ _ (fun e => h0 e.symm), ih]

theorem lookup_objSet_other (ms : List (String × Json)) (k k' : String) (v : Json)
    (h : k' ≠ k) : (Json.objSet ms k v).lookup k' = ms.lookup k' := by
  induction ms with
  | nil => simp [Json.objSet, lookup_cons_ne_of_ne _ _ _ _ h]
  | cons m rest ih =>
      obtain ⟨k0, v0⟩ := m
      by_cases h0 : k0 = k
      · subst h0
        rw [objSet_cons_eq, lookup_cons_ne_of_ne _ _ _ _ h, lookup_cons_ne_of_ne _ _ _ _ h]
      · by_cases h1 : k' = k0
        · subst h1
          rw [objSet_cons_ne _ _ _ _ _ h0]
          simp [List.lookup]
        · rw [objSet_cons_ne _ _ _ _ _ h0, lookup_cons_ne_of_ne _ _ _ _ h1,
            lookup_cons_ne_of_ne _ _ _ _ h1, ih]

theorem mgetD_objSet_other (ms : List (String × Json)) (k k' : String) (v d : Json)
    (h : k' ≠ k) : Json.mgetD (Json.objSet ms k v) k' d = Json.mgetD ms k' d := by
  unfold Json.mgetD
  rw [lookup_objSet_other ms k k' v h]

/-- `_assign_metadata` always returns a two-field
`{success: bool, message: str}` dict, whatever the outcome. -/
theorem assignMetadata_shape (outcome : HttpOutcome) :
    ∃ (b : Bool) (m : String),
      assignMetadata outcome = .obj [("success", Json.bool b), ("message", Json.str m)] := by
  cases outcome with
  | resp r =>
      by_cases h : r.status = 200
      · exact ⟨true, "Metadata assigned successfully", by simp [assignMetadata, h]⟩
      · refine ⟨false,
          "Metadata assignment failed (HTTP " ++ toString r.status ++ "): " ++
            (match r.jsonBody with
             | Except.ok (Json.obj ems) =>
                 Json.mgetD ems "message" (Json.mgetD ems "error" (Json.str r.text))
             | _ => Json.str r.text).pyStr, ?_⟩
        simp [assignMetadata, h]
  | timeout e => exact ⟨false, "Metadata assignment error: " ++ e, rfl⟩
  | exc e => exact ⟨false, "Metadata assignment error: " ++ e, rfl⟩

/-- When the result's `document` member (with default `{}`) is a dict, the
composer succeeds and emits exactly the text summary followed by the
structured payload. -/
theorem composeMessages_ok (dn op : String) (ms : List (String × Json)) (fid mr : Json)
    (mt : Bool) (dms : List (String × Json))
    (hdoc : Json.mgetD ms "document" (.obj []) = .obj dms)
    (hmr : mr = .null ∨ ∃ (b : Bool) (w : String),
        mr = .obj [("success", Json.bool b), ("message", Json.str w)]) :
    ∃ s, composeMessages dn op ms fid mr mt = .ok [.text s, .json (.obj ms)] := by
  rcases hmr with h | ⟨b, w, h⟩ <;> subst h
  · by_cases hmt2 : mt <;>
      simp [composeMessages, hdoc, pyGetD_obj, Json.truthy, hmt2]
  · cases b <;>
      simp [composeMessages, hdoc, pyGetD_obj, Json.truthy, Json.pyGet, List.lookup]

/-- The composer's output when the metadata result reports failure: the
success summary parts, then the `Metadata warning:` part carrying the
assigner's message. -/
theorem composeMessages_fail (dn op : String) (ms : List (String × Json)) (fid : Json)
    (w : String) (mt : Bool) (dms : List (String × Json))
    (hdoc : Json.mgetD ms "document" (.obj []) = .obj dms) :
    composeMessages dn op ms fid
        (.obj [("success", .bool false), ("message", .str w)]) mt
      = .ok [.text (String.intercalate " "
          ((["Document '" ++ dn ++ "' " ++ op ++ "d successfully.",
             "ID: " ++ (Json.mgetD dms "id" (Json.pyOr fid (.str "N/A"))).pyStr]
            ++ (if (Json.mgetD ms "batch" (.str "")).truthy = true
                then ["Batch: " ++ (Json.mgetD ms "batch" (.str "")).pyStr] else []))
           ++ ["Metadata warning: " ++ w])),
         .json (.obj ms)] := by
  have h1 : (Json.obj [("success", Json.bool false), ("message", Json.str w)]).truthy
      = true := rfl
  have h2 : (Json.bool false).truthy = false := rfl
  by_cases hb : (Json.mgetD ms "batch" (.str "")).truthy = true <;>
    simp [composeMessages, hdoc, pyGetD_obj, Json.pyGet, List.lookup,
      Json.pyStr, hb, h1, h2]

/-- `finalDocPair` when the success condition of the fallback is absent:
the members are kept and the embedded id (possibly falsy) is the result. -/
theorem finalDocPair_keep (ms1 : List (String × Json)) (ex : Option String)
    (h : (!(embeddedDocId ms1).truthy
      && (match ex with | some s => Json.str s | none => Json.null).truthy) = false) :
    finalDocPair ms1 ex = (embeddedDocId ms1, ms1) := by
  unfold finalDocPair
  simp only [h, Bool.false_eq_true, if_false]

/-- `finalDocPair` when the embedded id is falsy, the resolver knew a
non-empty id, and the result has no `document` member: the resolver's id
is injected. -/
theorem finalDocPair_inject (ms1 : List (String × Json)) (docid : String)
    (h1 : (embeddedDocId ms1).truthy = false) (h2 : docid ≠ "")
    (h3 : (ms1.lookup "document").isSome = false) :
    finalDocPair ms1 (some docid)
      = (.str docid, Json.objSet ms1 "document" (.obj [("id", .str docid)])) := by
  have hdt : (Json.str docid).truthy = true := by simp [Json.truthy, bne_iff_ne, h2]
  unfold finalDocPair
  simp only [h1, Bool.not_false, Bool.true_and, hdt, if_true, h3, Bool.false_eq_true, if_false]

/-- `finalDocPair` when the embedded id is falsy and the resolver knew an
id but the result already carries a `document` member: the resolver's id
wins but the members are untouched. -/
theorem finalDocPair_keep_existing (ms1 : List (String × Json)) (docid : String)
    (h1 : (embeddedDocId ms1).truthy = false) (h2 : docid ≠ "")
    (h3 : (ms1.lookup "document").isSome = true) :
    finalDocPair ms1 (some docid) = (.str docid, ms1) := by
  have hdt : (Json.str docid).truthy = true := by simp [Json.truthy, bne_iff_ne, h2]
  unfold finalDocPair
  simp only [h1, Bool.not_false, Bool.true_and, hdt, if_true, h3]

/-- What the id-extraction step guarantees about the result members, under
the shape hypothesis that the write response's `document` member, when
present, is a dict. -/
theorem finalDocPair_facts (rf : List (String × Json)) (op : String) (exdoc : Option String)
    (hshape : rf.lookup "document" = none
      ∨ ∃ dms, Json.mget rf "document" = .obj dms) :
    (Json.mget (finalDocPair (Json.objSet rf "operation" (.str op)) exdoc).2 "operation"
        = .str op)
    ∧ (∃ dms2, Json.mgetD (finalDocPair (Json.objSet rf "operation" (.str op)) exdoc).2
        "document" (.obj []) = .obj dms2)
    ∧ ((embeddedDocId rf).truthy = true →
        Json.mget (finalDocPair (Json.objSet rf "operation" (.str op)) exdoc).2 "document"
          = Json.mget rf "document")
    ∧ (∀ docid, exdoc = some docid → docid ≠ "" → rf.lookup "document" = none →
        Json.mget (finalDocPair (Json.objSet rf "operation" (.str op)) exdoc).2 "document"
          = .obj [("id", .str docid)]) := by
  have hOpNeDoc : ("document" : String) ≠ "operation" := by decide
  have hemb1 : embeddedDocId (Json.objSet rf "operation" (.str op)) = embeddedDocId rf :=
    embeddedDocId_objSet_ne rf "operation" (.str op) (by decide)
  have hlk1 : (Json.objSet rf "operation" (.str op)).lookup "document" = rf.lookup "document" :=
    lookup_objSet_other rf "operation" "document" (.str op) hOpNeDoc
  have hmg1 : Json.mget (Json.objSet rf "operation" (.str op)) "document"
      = Json.mget rf "document" :=
    mget_objSet_other rf "operation" "document" (.str op) hOpNeDoc
  have hmgd1 : ∃ dms2, Json.mgetD (Json.objSet rf "operation" (.str op)) "document" (.obj [])
      = .obj dms2 := by
    rcases hshape with hnone | ⟨dms, hdms⟩
    · refine ⟨[], ?_⟩
      unfold Json.mgetD
      rw [hlk1, hnone]
    · refine ⟨dms, ?_⟩
      have hl : rf.lookup "document" = some (.obj dms) := by
        unfold Json.mget at hdms
        cases hl : rf.lookup "document" with
        | some v => rw [hl] at hdms; simpa using congrArg some hdms
        | none => rw [hl] at hdms; simp at hdms
      unfold Json.mgetD
      rw [hlk1, hl]
  by_cases hembt : (embeddedDocId rf).truthy = true
  · -- embedded id truthy: members unchanged
    have hkeep := finalDocPair_keep (Json.objSet rf "operation" (.str op)) exdoc
      (by rw [hemb1, hembt]; simp)
    rw [hkeep]
    refine ⟨mget_objSet_same rf "operation" (.str op), hmgd1, fun _ => hmg1, ?_⟩
    intro docid hdocid hne hnone
    exfalso
    have h0 : Json.mget rf "document" = .null := mget_of_lookup_none rf "document" hnone
    rw [show embeddedDocId rf = .null by unfold embeddedDocId; rw [h0]] at hembt
    simp [Json.truthy] at hembt
  · have hembf : (embeddedDocId rf).truthy = false := by
      cases h : (embeddedDocId rf).truthy
      · rfl
      · exact absurd h hembt
    have hembf1 : (embeddedDocId (Json.objSet rf "operation" (.str op))).truthy = false := by
      rw [hemb1]; exact hembf
    cases exdoc with
    | none =>
        have hkeep := finalDocPair_keep (Json.objSet rf "operation" (.str op)) none
          (by rw [hemb1, hembf]; simp [Json.truthy])
        rw [hkeep]
        exact ⟨mget_objSet_same rf "operation" (.str op), hmgd1,
          fun he => absurd he hembt, fun docid hdocid => by cases hdocid⟩
    | some docid =>
        by_cases hde : docid = ""
        · subst hde
          have hkeep := finalDocPair_keep (Json.objSet rf "operation" (.str op)) (some "")
            (by rw [hemb1, hembf]; simp [Json.truthy])
          rw [hkeep]
          exact ⟨mget_objSet_same rf "operation" (.str op), hmgd1,
            fun he => absurd he hembt,
            fun d hd hne _ => by cases hd; exact absurd rfl hne⟩
        · rcases hshape with hnone | ⟨dms, hdms⟩
          · -- no document member: the resolver's id is injected
            have hinj := finalDocPair_inject (Json.objSet rf "operation" (.str op)) docid
              hembf1 hde (by rw [hlk1, hnone]; rfl)
            rw [hinj]
            refine ⟨?_, ?_, fun he => absurd he hembt, ?_⟩
            · rw [mget_objSet_other _ "document" "operation" _ (by decide),
                mget_objSet_same rf "operation" (.str op)]
            · refine ⟨[("id", .str docid)], ?_⟩
              unfold Json.mgetD
              rw [lookup_objSet_same]
            · intro d hd hne _
              cases hd
              rw [mget_objSet_same]
          · -- document member present: members untouched
            have hl : rf.lookup "document" = some (.obj dms) := by
              unfold Json.mget at hdms
              cases hl : rf.lookup "document" with
              | some v => rw [hl] at hdms; simpa using congrArg some hdms
              | none => rw [hl] at hdms; simp at hdms
            have hkeep := finalDocPair_keep_existing (Json.objSet rf "operation" (.str op))
              docid hembf1 hde (by rw [hlk1, hl]; rfl)
            rw [hkeep]
            refine ⟨mget_objSet_same rf "operation" (.str op), hmgd1,
              fun he => absurd he hembt, ?_⟩
            intro d hd hne hnone
            rw [hnone] at hl
            cases hl

/-! ## Claim C6 — the metadata loader's rules -/

/-- Claim C6: absent/blank `metadata_json` loads to `None` and the literal
`"[]"` to the empty list, and in all three cases no metadata-assignment
request is ever issued by the invocation; an element lacking the `value`
key entirely (with truthy `id` and `name`) fails with
`InvalidConfiguration` (`PyError.valueError`), while an element carrying
the `value` key — whatever its value, `null` and `""` included — passes the
item check, and any array of passing items loads back unchanged. -/
theorem c6_metadata_loader :
    (loadMetadata .absent = .ok .null)
    ∧ (loadMetadata .blank = .ok .null)
    ∧ (loadMetadata (.wellFormed (.arr [])) = .ok (.arr []))
    ∧ (∀ (creds : Credentials) (p : ToolParams) (env : Env),
        (p.metadata_json = .absent ∨ p.metadata_json = .blank
          ∨ p.metadata_json = .wellFormed (.arr [])) →
        (invoke creds p env).metaAssigns = [])
    ∧ (∀ ms : List (String × Json),
        (Json.mget ms "id").truthy = true → (Json.mget ms "name").truthy = true →
        (Json.obj ms).hasKey "value" = false →
        checkMetadataItem (.obj ms) =
          .error (.valueError "Each metadata item must have a 'value' field"))
    ∧ (∀ ms : List (String × Json),
        (Json.mget ms "id").truthy = true → (Json.mget ms "name").truthy = true →
        (Json.obj ms).hasKey "value" = true →
        checkMetadataItem (.obj ms) = .ok ())
    ∧ (∀ items : List Json, checkMetadataItems items = .ok () →
        loadMetadata (.wellFormed (.arr items)) = .ok (.arr items)) := by
  refine ⟨by decide, by decide, by decide, ?_, ?_, ?_, ?_⟩
  · intro creds p env h
    rcases h with h | h | h
    · exact invoke_metaAssigns_of_not_truthy creds p env .null (by rw [h]; decide) (by decide)
    · exact invoke_metaAssigns_of_not_truthy creds p env .null (by rw [h]; decide) (by decide)
    · exact invoke_metaAssigns_of_not_truthy creds p env (.arr [])
        (by rw [h]; decide) (by decide)
  · intro ms hid hname hval
    simp [checkMetadataItem, pyGet_obj, Json.isObj, hid, hname, hval]
  · intro ms hid hname hval
    simp [checkMetadataItem, pyGet_obj, Json.isObj, hid, hname, hval]
  · intro items h
    simp [loadMetadata, h]

/-- Witness for C6: the spec's own examples — empty array never triggers
an assignment request; a missing `value` key is rejected; an empty-string
`value` is accepted. -/
theorem c6_witness :
    (invoke ⟨some "k", some "http://h/v1"⟩
      { dataset_id := "D1", name := "N", text := "T",
        metadata_json := .wellFormed (.arr []) }
      ⟨.resp ⟨200, "", .ok (.obj [("data", .arr [])])⟩,
       .resp ⟨200, "", .ok (.obj [])⟩,
       .resp ⟨200, "", .ok (.obj [])⟩⟩).metaAssigns = []
    ∧ checkMetadataItem (.obj [("id", .str "x"), ("name", .str "n")]) =
        .error (.valueError "Each metadata item must have a 'value' field")
    ∧ checkMetadataItem (.obj [("id", .str "x"), ("name", .str "n"), ("value", .str "")])
        = .ok () := by
  refine ⟨?_, ?_, ?_⟩
  · exact c6_metadata_loader.2.2.2.1 ⟨some "k", some "http://h/v1"⟩
      { dataset_id := "D1", name := "N", text := "T",
        metadata_json := .wellFormed (.arr []) }
      ⟨.resp ⟨200, "", .ok (.obj [("data", .arr [])])⟩,
       .resp ⟨200, "", .ok (.obj [])⟩,
       .resp ⟨200, "", .ok (.obj [])⟩⟩ (Or.inr (Or.inr rfl))
  · exact c6_metadata_loader.2.2.2.2.1 [("id", .str "x"), ("name", .str "n")]
      (by decide) (by decide) (by decide)
  · exact c6_metadata_loader.2.2.2.2.2.1
      [("id", .str "x"), ("name", .str "n"), ("value", .str "")]
      (by decide) (by decide) (by decide)

/-! ## Claim C3 — failure handling of the document write -/

/-- Claim C3 as stated is false on the raw-body clause: here the write
fails with HTTP 500 and the decodable body `{"foo":"bar"}`, which carries
no `message`, `error`, or `detail` field, and whose raw text is non-empty —
the claim then requires the failure message to carry the raw body text,
but the code only falls back to the raw text when the body is NOT
decodable JSON, so the emitted message is the bare status
`"Failed to create document: HTTP 500"`, which does not contain the body. -/
theorem c3_counterexample :
    (invoke ⟨some "k", some "http://h/v1"⟩
        { dataset_id := "D1", name := "Report", text := "hello" }
        ⟨.resp ⟨200, "", .ok (.obj [("data", .arr [])])⟩,
         .resp ⟨500, "\x7b\"foo\":\"bar\"\x7d", .ok (.obj [("foo", .str "bar")])⟩,
         .resp ⟨200, "", .ok (.obj [])⟩⟩).messages
      = [.text "Failed to create document: HTTP 500"]
    ∧ strContains "Failed to create document: HTTP 500" "\x7b\"foo\":\"bar\"\x7d" = false
    ∧ ("\x7b\"foo\":\"bar\"\x7d" : String) ≠ ""
    ∧ Json.mget [("foo", Json.str "bar")] "message" = .null
    ∧ Json.mget [("foo", Json.str "bar")] "error" = .null
    ∧ Json.mget [("foo", Json.str "bar")] "detail" = .null := by
  refine ⟨by decide, by decide, by decide, by decide, by decide, by decide⟩

/-- Claim C3, amended: for every write whose response status lies outside
2xx, the workflow fails with the `UpstreamError` message given by
`upstreamMessage`/`upstreamDetail` — the first truthy of the decoded
body's `message`/`error`/`detail` fields when the body parses to a JSON
object, else (only when the body is NOT decodable JSON) the raw body text
if non-empty, else the bare status code; the invocation then emits exactly
one explanatory text message carrying that detail, performs no
metadata-assignment call, and emits no structured JSON payload. -/
theorem c3_upstream_failure (creds : Credentials) (p : ToolParams) (env : Env)
    (itech : String) (pr ml : Json) (exdoc : Option String) (r : HttpResponse)
    (hk : optTruthy creds.api_key = true) (hb : optTruthy creds.base_url = true)
    (hd : p.dataset_id ≠ "") (hn : p.name ≠ "") (ht : p.text ≠ "")
    (hidx : resolveIndexingTechnique p.indexing_technique = .ok itech)
    (hpr : loadProcessRule p.process_rule = .ok pr)
    (hmd : loadMetadata p.metadata_json = .ok ml)
    (hfind : findDocumentIdByName env.listOutcome p.name = .ok exdoc)
    (hwo : env.writeOutcome = .resp r)
    (hbad : ¬(200 ≤ r.status ∧ r.status < 300)) :
    (invoke creds p env).messages =
      [.text (upstreamMessage
        ("Failed to "
          ++ (chosenOpUrl (rstripSlash (creds.base_url.getD "") ++ "/datasets/"
                ++ p.dataset_id) exdoc).1
          ++ " document") r)]
    ∧ (invoke creds p env).metaAssigns = []
    ∧ (invoke creds p env).jsonPayloads = [] := by
  have hred : invoke creds p env =
      ⟨[.text (upstreamMessage
        ("Failed to "
          ++ (chosenOpUrl (rstripSlash (creds.base_url.getD "") ++ "/datasets/"
                ++ p.dataset_id) exdoc).1
          ++ " document") r)],
       [.listDocuments (rstripSlash (creds.base_url.getD "") ++ "/datasets/"
            ++ p.dataset_id ++ "/documents") p.name 100 1,
        .writeDocument (chosenOpUrl (rstripSlash (creds.base_url.getD "") ++ "/datasets/"
            ++ p.dataset_id) exdoc).2 (buildData p itech pr)]⟩ := by
    simp only [invoke, hk, hb, Bool.not_true, Bool.false_eq_true, if_false,
      if_neg hd, if_neg hn, if_neg ht]
    simp only [invokeTry, hidx, hpr, hmd, hfind, hwo]
    simp only [afterWriteResponse, raiseForStatus, if_neg hbad, invokeErrorMessage]
  rw [hred]
  refine ⟨rfl, by simp [InvokeResult.metaAssigns, List.filter, Request.isMetadataAssign],
    by simp [InvokeResult.jsonPayloads]⟩

/-- Witness for C3 (amended) at end-to-end scenario 4: the create call
fails with HTTP 500 and `{"message": "quota exceeded"}`. -/
theorem c3_witness :
    (invoke ⟨some "k", some "http://h/v1"⟩
        { dataset_id := "D1", name := "Report", text := "hello" }
        ⟨.resp ⟨200, "", .ok (.obj [("data", .arr [])])⟩,
         .resp ⟨500, "x", .ok (.obj [("message", .str "quota exceeded")])⟩,
         .resp ⟨200, "", .ok (.obj [])⟩⟩).messages
      = [.text "Failed to create document: quota exceeded"]
    ∧ (invoke ⟨some "k", some "http://h/v1"⟩
        { dataset_id := "D1", name := "Report", text := "hello" }
        ⟨.resp ⟨200, "", .ok (.obj [("data", .arr [])])⟩,
         .resp ⟨500, "x", .ok (.obj [("message", .str "quota exceeded")])⟩,
         .resp ⟨200, "", .ok (.obj [])⟩⟩).metaAssigns = [] := by
  have h := c3_upstream_failure ⟨some "k", some "http://h/v1"⟩
    { dataset_id := "D1", name := "Report", text := "hello" }
    ⟨.resp ⟨200, "", .ok (.obj [("data", .arr [])])⟩,
     .resp ⟨500, "x", .ok (.obj [("message", .str "quota exceeded")])⟩,
     .resp ⟨200, "", .ok (.obj [])⟩⟩
    "high_quality" (.obj [("mode", .str "automatic")]) .null none
    ⟨500, "x", .ok (.obj [("message", .str "quota exceeded")])⟩
    (by decide) (by decide) (by decide) (by decide) (by decide)
    (by decide) (by decide) (by decide) (by decide) rfl (by decide)
  exact ⟨by rw [h.1]; decide, h.2.1⟩

/-! ## Claim C4 — the Metadata Assigner never fails the invocation -/

/-- Claim C4 as stated is false on one corner: the update response embeds
`{"document": "abc"}` (a non-dict `document` member), the resolver knew id
`"42"`, metadata is provided, and the assignment call fails with HTTP 500.
The assignment is attempted (one metadata request in the trace) and
reports failure, yet the invocation does NOT emit the success summary or
any structured payload: the composer's `doc_info.get(...)` raises
`AttributeError` on the non-dict member, so a single generic
`"Error: ..."` message is produced — though that crash is caused by the
response shape, not by the assignment failure itself. -/
theorem c4_counterexample :
    (invoke ⟨some "k", some "http://h/v1"⟩
      { dataset_id := "D1", name := "Report", text := "hello",
        metadata_json := .wellFormed (.arr
          [.obj [("id", .str "m1"), ("name", .str "Author"), ("value", .str "Alice")]]) }
      ⟨.resp ⟨200, "",
          .ok (.obj [("data", .arr [.obj [("name", .str "Report"), ("id", .str "42")]])])⟩,
       .resp ⟨200, "", .ok (.obj [("document", .str "abc")])⟩,
       .resp ⟨500, "boom", .error "e"⟩⟩).messages
      = [.text "Error: 'str' object has no attribute 'get'"]
    ∧ (invoke ⟨some "k", some "http://h/v1"⟩
      { dataset_id := "D1", name := "Report", text := "hello",
        metadata_json := .wellFormed (.arr
          [.obj [("id", .str "m1"), ("name", .str "Author"), ("value", .str "Alice")]]) }
      ⟨.resp ⟨200, "",
          .ok (.obj [("data", .arr [.obj [("name", .str "Report"), ("id", .str "42")]])])⟩,
       .resp ⟨200, "", .ok (.obj [("document", .str "abc")])⟩,
       .resp ⟨500, "boom", .error "e"⟩⟩).metaAssigns.length = 1
    ∧ (Json.mget [("success", Json.bool false),
          ("message", Json.str "Metadata assignment error: e")] "success")
        = .bool false := by
  refine ⟨by decide, by decide, by decide⟩

/-- Claim C4, amended: `_assign_metadata` is total — every outcome of the
assignment call (any status, any transport exception) becomes a structured
`{success, message}` record — and when the record reports failure, the
invocation still emits the success summary of the document write (the text
message begins with `Document '<name>' <operation>d successfully.`), with
the `Metadata warning:` embedded, together with the full structured
payload whose `metadata_assignment` member carries the assigner's record —
PROVIDED the write response's `document` member, when present, is itself a
dict (a non-dict member crashes the composer regardless of the assignment
outcome, see the counterexample): an assignment failure itself never
produces a failure-shaped (text-only) response. -/
theorem c4_assigner_never_raises (creds : Credentials) (p : ToolParams) (env : Env)
    (itech : String) (pr ml fid : Json) (exdoc : Option String) (r : HttpResponse)
    (rf ms1 ms2 dms : List (String × Json)) (w : String) (bu dbu op : String)
    (hk : optTruthy creds.api_key = true) (hb : optTruthy creds.base_url = true)
    (hd : p.dataset_id ≠ "") (hn : p.name ≠ "") (ht : p.text ≠ "")
    (hidx : resolveIndexingTechnique p.indexing_technique = .ok itech)
    (hpr : loadProcessRule p.process_rule = .ok pr)
    (hmd : loadMetadata p.metadata_json = .ok ml)
    (hfind : findDocumentIdByName env.listOutcome p.name = .ok exdoc)
    (hwo : env.writeOutcome = .resp r)
    (hst : 200 ≤ r.status ∧ r.status < 300)
    (hbody : r.jsonBody = .ok (.obj rf))
    (hbu : bu = rstripSlash (creds.base_url.getD ""))
    (hdbu : dbu = bu ++ "/datasets/" ++ p.dataset_id)
    (hop : op = (chosenOpUrl dbu exdoc).1)
    (hms1 : ms1 = Json.objSet rf "operation" (.str op))
    (hpair : finalDocPair ms1 exdoc = (fid, ms2))
    (hml : ml.truthy = true) (hfid : fid.truthy = true)
    (hdoc : Json.mgetD ms2 "document" (.obj []) = .obj dms)
    (hfail : assignMetadata env.metaOutcome
        = .obj [("success", .bool false), ("message", .str w)]) :
    (∀ outcome : HttpOutcome, ∃ (b : Bool) (m : String),
        assignMetadata outcome = .obj [("success", Json.bool b), ("message", Json.str m)])
    ∧ ∃ (s : String) (msOut : List (String × Json)) (rest : String),
        (invoke creds p env).messages = [.text s, .json (.obj msOut)]
        ∧ s = ("Document '" ++ p.name ++ "' " ++ op ++ "d successfully.") ++ rest
        ∧ strContains s "Metadata warning: " = true
        ∧ Json.mget msOut "metadata_assignment" = assignMetadata env.metaOutcome := by
  refine ⟨assignMetadata_shape, ?_⟩
  subst hms1
  subst hop
  subst hdbu
  subst hbu
  have hshape := invoke_success_shape creds p env itech pr ml exdoc r rf
    hk hb hd hn ht hidx hpr hmd hfind hwo hst hbody
  simp only [] at hshape
  rw [hshape]
  simp only [afterWrite, hpair, hml, hfid, Bool.and_self]
  simp only [if_true]
  set mr := assignMetadata env.metaOutcome with hmr
  have hdoc3 : Json.mgetD (Json.objSet ms2 "metadata_assignment" mr) "document" (.obj [])
      = .obj dms := by
    rw [mgetD_objSet_other ms2 "metadata_assignment" "document" mr _ (by decide)]
    exact hdoc
  rw [hfail] at hdoc3 ⊢
  rw [composeMessages_fail p.name _ (Json.objSet ms2 "metadata_assignment"
      (.obj [("success", .bool false), ("message", .str w)])) fid w true dms hdoc3]
  simp only [composeOrError]
  set p1 := "Document '" ++ p.name ++ "' "
      ++ (chosenOpUrl (rstripSlash (creds.base_url.getD "") ++ "/datasets/"
            ++ p.dataset_id) exdoc).1 ++ "d successfully." with hp1
  set p2 := "ID: " ++ (Json.mgetD dms "id" (Json.pyOr fid (.str "N/A"))).pyStr with hp2
  set bpart := (if (Json.mgetD (Json.objSet ms2 "metadata_assignment"
        (Json.obj [("success", Json.bool false), ("message", Json.str w)])) "batch"
        (Json.str "")).truthy = true
      then ["Batch: " ++ (Json.mgetD (Json.objSet ms2 "metadata_assignment"
        (Json.obj [("success", Json.bool false), ("message", Json.str w)])) "batch"
        (Json.str "")).pyStr] else []) with hbpart
  have hlist : (([p1, p2] ++ bpart) ++ ["Metadata warning: " ++ w])
      = p1 :: (p2 :: (bpart ++ ["Metadata warning: " ++ w])) := by simp
  rw [hlist, intercalate_cons]
  refine ⟨_, _, sepJoinTail " " (p2 :: (bpart ++ ["Metadata warning: " ++ w])),
    rfl, rfl, ?_, ?_⟩
  · rw [← intercalate_cons]
    have hlist2 : p2 :: (bpart ++ ["Metadata warning: " ++ w])
        = (p2 :: bpart) ++ ["Metadata warning: " ++ w] := by simp
    rw [hlist2]
    exact intercalate_contains_last " " _ p1 "Metadata warning: " (p2 :: bpart)
      (strContains_leading _ _)
  · rw [mget_objSet_same]

/-- Witness for C4: the metadata call fails with HTTP 500 after a
successful create; the invocation still yields the success summary plus
the structured payload carrying the failure record. -/
theorem c4_witness :
    ∃ (s : String) (msOut : List (String × Json)) (rest : String),
      (invoke ⟨some "k", some "http://h/v1"⟩
        { dataset_id := "D1", name := "Report", text := "hello",
          metadata_json := .wellFormed (.arr
            [.obj [("id", .str "m1"), ("name", .str "Author"), ("value", .str "Alice")]]) }
        ⟨.resp ⟨200, "", .ok (.obj [("data", .arr [])])⟩,
         .resp ⟨200, "", .ok (.obj [("document", .obj [("id", .str "new1")])])⟩,
         .resp ⟨500, "boom", .error "e"⟩⟩).messages = [.text s, .json (.obj msOut)]
      ∧ s = "Document 'Report' created successfully." ++ rest
      ∧ strContains s "Metadata warning: " = true
      ∧ Json.mget msOut "metadata_assignment"
          = assignMetadata (.resp ⟨500, "boom", .error "e"⟩) := by
  obtain ⟨s, msOut, rest, h1, h2, h3, h4⟩ :=
    (c4_assigner_never_raises ⟨some "k", some "http://h/v1"⟩
      { dataset_id := "D1", name := "Report", text := "hello",
        metadata_json := .wellFormed (.arr
          [.obj [("id", .str "m1"), ("name", .str "Author"), ("value", .str "Alice")]]) }
      ⟨.resp ⟨200, "", .ok (.obj [("data", .arr [])])⟩,
       .resp ⟨200, "", .ok (.obj [("document", .obj [("id", .str "new1")])])⟩,
       .resp ⟨500, "boom", .error "e"⟩⟩
      "high_quality" (.obj [("mode", .str "automatic")])
      (.arr [.obj [("id", .str "m1"), ("name", .str "Author"), ("value", .str "Alice")]])
      (.str "new1") none ⟨200, "", .ok (.obj [("document", .obj [("id", .str "new1")])])⟩
      [("document", .obj [("id", .str "new1")])]
      [("document", .obj [("id", .str "new1")]), ("operation", .str "create")]
      [("document", .obj [("id", .str "new1")]), ("operation", .str "create")]
      [("id", .str "new1")]
      "Metadata assignment failed (HTTP 500): boom"
      "http://h/v1" "http://h/v1/datasets/D1" "create"
      (by decide) (by decide) (by decide) (by decide) (by decide) (by decide)
      (by decide) (by decide) (by decide) rfl (by decide) (by decide)
      (by decide) (by decide) (by decide) (by decide) (by decide)
      (by decide) (by decide) (by decide) (by decide)).2
  refine ⟨s, msOut, rest, h1, ?_, h3, h4⟩
  rw [h2]
  congr 1

/-! ## Claim C1 — the create-or-update decision -/

/-- Spec-side selection rule (amended claim C1) for the final document id
settled on by lines 320-331: the id embedded in the write response's
`document` object when that id is truthy; otherwise the resolver's id when
the resolver found a non-empty one; otherwise the (falsy) embedded value
stays.  The fallback keys on a falsy embedded id, never on the presence or
absence of the `document` member. -/
def reportedDocId (rf : List (String × Json)) (exdoc : Option String) : Json :=
  let embedded := embeddedDocId rf
  let existingVal : Json :=
    match exdoc with
    | some s => .str s
    | none => .null
  if embedded.truthy then embedded
  else if existingVal.truthy then existingVal
  else embedded

/-- The code's `final_document_id` (the first component of `finalDocPair`
over the members annotated with the operation) is exactly
`reportedDocId` — both directions of the amended claim's id-selection
rule, for every response body and resolver result. -/
theorem finalDocPair_fst (rf : List (String × Json)) (op : String) (exdoc : Option String) :
    (finalDocPair (Json.objSet rf "operation" (.str op)) exdoc).1
      = reportedDocId rf exdoc := by
  unfold finalDocPair reportedDocId
  rw [embeddedDocId_objSet_ne rf "operation" (.str op) (by decide)]
  by_cases hemb : (embeddedDocId rf).truthy = true
  · simp [hemb]
  · have hembf : (embeddedDocId rf).truthy = false := by
      cases h : (embeddedDocId rf).truthy
      · rfl
      · exact absurd h hemb
    cases exdoc with
    | none => simp [hembf, Json.truthy]
    | some docid =>
        by_cases hde : docid = ""
        · subst hde
          simp [hembf, Json.truthy]
        · have hdt : (Json.str docid).truthy = true := by
            simp [Json.truthy, bne_iff_ne, hde]
          simp [hembf, hdt]

/-- Claim C1 as stated is false on its reported-id clause: dataset `D1`
has a document `id="42"` named `"Report"`, so the Resolver returns `"42"`
and one update call targets id `42` — but the update response itself
embeds `{"document": {"id": "99"}}`, and the workflow prefers the embedded
id, so the final document id reported (summary and payload alike) is
`"99"`, not the resolver's `"42"`. -/
theorem c1_counterexample :
    findDocIdInPayload
        (.obj [("data", .arr [.obj [("name", .str "Report"), ("id", .str "42")]])])
        "Report" = some "42"
    ∧ (invoke ⟨some "k", some "http://h/v1"⟩
        { dataset_id := "D1", name := "Report", text := "hello" }
        ⟨.resp ⟨200, "",
            .ok (.obj [("data", .arr [.obj [("name", .str "Report"), ("id", .str "42")]])])⟩,
         .resp ⟨200, "", .ok (.obj [("document", .obj [("id", .str "99")])])⟩,
         .resp ⟨200, "", .ok (.obj [])⟩⟩).messages =
      [.text "Document 'Report' updated successfully. ID: 99",
       .json (.obj [("document", .obj [("id", .str "99")]), ("operation", .str "update")])]
    ∧ ("99" : String) ≠ "42" := by
  refine ⟨by decide, by decide, by decide⟩

/-- Claim C1, amended: under valid required parameters and successful
loads, when the listing resolves and the write returns 2xx with a dict
body (whose `document` member, if present, is itself a dict): the workflow
issues exactly one document write — an update-by-text call targeted at the
resolver's id when one was found, else a create-by-text call — and the
emitted payload is annotated with the operation actually performed.  The
final document id is the id embedded in the write response's `document`
object when that id is truthy, and otherwise falls back to the resolver's
id when one was found — the fallback keys on a falsy embedded id, not on
the absence of the `document` member (`reportedDocId`, proved in both
directions via `finalDocPair_fst`).  In particular the payload passes the
response's own `document` object through when the embedded id is truthy,
and gains an injected `{"id": <resolver id>}` object when the response
carried no `document` member. -/
theorem c1_create_update_branch (creds : Credentials) (p : ToolParams) (env : Env)
    (itech : String) (pr ml : Json) (exdoc : Option String) (r : HttpResponse)
    (rf : List (String × Json)) (bu dbu op : String)
    (hk : optTruthy creds.api_key = true) (hb : optTruthy creds.base_url = true)
    (hd : p.dataset_id ≠ "") (hn : p.name ≠ "") (ht : p.text ≠ "")
    (hidx : resolveIndexingTechnique p.indexing_technique = .ok itech)
    (hpr : loadProcessRule p.process_rule = .ok pr)
    (hmd : loadMetadata p.metadata_json = .ok ml)
    (hfind : findDocumentIdByName env.listOutcome p.name = .ok exdoc)
    (hwo : env.writeOutcome = .resp r)
    (hst : 200 ≤ r.status ∧ r.status < 300)
    (hbody : r.jsonBody = .ok (.obj rf))
    (hbu : bu = rstripSlash (creds.base_url.getD ""))
    (hdbu : dbu = bu ++ "/datasets/" ++ p.dataset_id)
    (hop : op = (chosenOpUrl dbu exdoc).1)
    (hshape : rf.lookup "document" = none
      ∨ ∃ dms, Json.mget rf "document" = .obj dms) :
    ((invoke creds p env).writes
        = [.writeDocument (chosenOpUrl dbu exdoc).2 (buildData p itech pr)])
    ∧ ((finalDocPair (Json.objSet rf "operation" (.str op)) exdoc).1
        = reportedDocId rf exdoc)
    ∧ ∃ msOut : List (String × Json),
        (invoke creds p env).jsonPayloads = [.obj msOut]
        ∧ Json.mget msOut "operation" = .str op
        ∧ ((embeddedDocId rf).truthy = true →
            Json.mget msOut "document" = Json.mget rf "document")
        ∧ (∀ docid, exdoc = some docid → docid ≠ "" → rf.lookup "document" = none →
            Json.mget msOut "document" = .obj [("id", .str docid)]) := by
  subst hop
  subst hdbu
  subst hbu
  have hred := invoke_success_shape creds p env itech pr ml exdoc r rf
    hk hb hd hn ht hidx hpr hmd hfind hwo hst hbody
  simp only [] at hred
  rw [hred]
  obtain ⟨hfact1, ⟨dms2, hfact2⟩, hfact3, hfact4⟩ :=
    finalDocPair_facts rf
      ((chosenOpUrl (rstripSlash (creds.base_url.getD "") ++ "/datasets/"
          ++ p.dataset_id) exdoc).1) exdoc hshape
  by_cases hcond : (ml.truthy
      && (finalDocPair (Json.objSet rf "operation"
            (.str (chosenOpUrl (rstripSlash (creds.base_url.getD "") ++ "/datasets/"
              ++ p.dataset_id) exdoc).1)) exdoc).1.truthy) = true
  · -- metadata assignment is attempted; the payload gains one extra member
    simp only [afterWrite, hcond, if_true]
    refine ⟨?_, finalDocPair_fst rf _ exdoc, ?_⟩
    · simp [InvokeResult.writes, List.filter, Request.isWriteDocument]
    · have hdoc3 : Json.mgetD (Json.objSet (finalDocPair (Json.objSet rf "operation"
          (.str (chosenOpUrl (rstripSlash (creds.base_url.getD "") ++ "/datasets/"
            ++ p.dataset_id) exdoc).1)) exdoc).2 "metadata_assignment"
          (assignMetadata env.metaOutcome)) "document" (.obj []) = .obj dms2 := by
        rw [mgetD_objSet_other _ "metadata_assignment" "document" _ _ (by decide)]
        exact hfact2
      obtain ⟨s, hcomp⟩ := composeMessages_ok p.name _ _ _ _ _ dms2 hdoc3
        (Or.inr (assignMetadata_shape env.metaOutcome))
      rw [hcomp]
      simp only [composeOrError]
      refine ⟨Json.objSet (finalDocPair (Json.objSet rf "operation"
          (.str (chosenOpUrl (rstripSlash (creds.base_url.getD "") ++ "/datasets/"
            ++ p.dataset_id) exdoc).1)) exdoc).2 "metadata_assignment"
          (assignMetadata env.metaOutcome), by simp [InvokeResult.jsonPayloads], ?_, ?_, ?_⟩
      · rw [mget_objSet_other _ "metadata_assignment" "operation" _ (by decide)]
        exact hfact1
      · intro he
        rw [mget_objSet_other _ "metadata_assignment" "document" _ (by decide)]
        exact hfact3 he
      · intro docid h1 h2 h3
        rw [mget_objSet_other _ "metadata_assignment" "document" _ (by decide)]
        exact hfact4 docid h1 h2 h3
  · -- no metadata assignment
    have hcond' : (ml.truthy
        && (finalDocPair (Json.objSet rf "operation"
              (.str (chosenOpUrl (rstripSlash (creds.base_url.getD "") ++ "/datasets/"
                ++ p.dataset_id) exdoc).1)) exdoc).1.truthy) = false := by
      cases h : (ml.truthy
          && (finalDocPair (Json.objSet rf "operation"
                (.str (chosenOpUrl (rstripSlash (creds.base_url.getD "") ++ "/datasets/"
                  ++ p.dataset_id) exdoc).1)) exdoc).1.truthy)
      · rfl
      · exact absurd h hcond
    simp only [afterWrite, hcond', Bool.false_eq_true, if_false]
    refine ⟨?_, finalDocPair_fst rf _ exdoc, ?_⟩
    · simp [InvokeResult.writes, List.filter, Request.isWriteDocument]
    · obtain ⟨s, hcomp⟩ := composeMessages_ok p.name _ _ _ _ _ dms2 hfact2
        (Or.inl rfl)
      rw [hcomp]
      simp only [composeOrError]
      exact ⟨(finalDocPair (Json.objSet rf "operation"
          (.str (chosenOpUrl (rstripSlash (creds.base_url.getD "") ++ "/datasets/"
            ++ p.dataset_id) exdoc).1)) exdoc).2,
        by simp [InvokeResult.jsonPayloads], hfact1, hfact3, hfact4⟩

/-- Witness for C1 (amended) at end-to-end scenario 2: dataset `D1`
already has document `id="42"` named `"Report"`; exactly one update call
targets id 42 and, the update response's embedded id being absent (falsy),
the final document id falls back to the resolver's 42. -/
theorem c1_witness :
    reportedDocId [] (some "42") = .str "42"
    ∧ ∃ msOut : List (String × Json),
      (invoke ⟨some "k", some "http://h/v1"⟩
        { dataset_id := "D1", name := "Report", text := "hello" }
        ⟨.resp ⟨200, "",
            .ok (.obj [("data", .arr [.obj [("name", .str "Report"), ("id", .str "42")]])])⟩,
         .resp ⟨200, "", .ok (.obj [])⟩,
         .resp ⟨200, "", .ok (.obj [])⟩⟩).jsonPayloads = [.obj msOut]
      ∧ Json.mget msOut "operation" = .str "update"
      ∧ Json.mget msOut "document" = .obj [("id", .str "42")]
      ∧ (invoke ⟨some "k", some "http://h/v1"⟩
          { dataset_id := "D1", name := "Report", text := "hello" }
          ⟨.resp ⟨200, "",
              .ok (.obj [("data", .arr [.obj [("name", .str "Report"), ("id", .str "42")]])])⟩,
           .resp ⟨200, "", .ok (.obj [])⟩,
           .resp ⟨200, "", .ok (.obj [])⟩⟩).writes
        = [.writeDocument "http://h/v1/datasets/D1/documents/42/update-by-text"
            (.obj [("text", .str "hello"), ("name", .str "Report"),
                   ("indexing_technique", .str "high_quality"),
                   ("process_rule", .obj [("mode", .str "automatic")])])] := by
  obtain ⟨hw, hfid, msOut, hp, hopc, hemb, hfallback⟩ :=
    c1_create_update_branch ⟨some "k", some "http://h/v1"⟩
      { dataset_id := "D1", name := "Report", text := "hello" }
      ⟨.resp ⟨200, "",
          .ok (.obj [("data", .arr [.obj [("name", .str "Report"), ("id", .str "42")]])])⟩,
       .resp ⟨200, "", .ok (.obj [])⟩,
       .resp ⟨200, "", .ok (.obj [])⟩⟩
      "high_quality" (.obj [("mode", .str "automatic")]) .null (some "42")
      ⟨200, "", .ok (.obj [])⟩ [] "http://h/v1" "http://h/v1/datasets/D1" "update"
      (by decide) (by decide) (by decide) (by decide) (by decide) (by decide)
      (by decide) (by decide) (by decide) rfl (by decide) (by decide)
      (by decide) (by decide) (by decide) (Or.inl (by decide))
  refine ⟨hfid.symm.trans (by decide), msOut, hp, hopc,
    hfallback "42" rfl (by decide) (by decide), ?_⟩
  rw [hw]
  decide

end KnowledgePro
